import Mathlib

set_option maxHeartbeats 1000000

/-!
Verification development for the VR gesture / interaction layer of the
repository (vtk.js + WebXR viewer).  The repository ships several divergent
implementations of the same gestures; each cited variant is embedded
separately, faithful to its own source:

* the event-driven `setupVRInteractions` / `makeActorInteractive` layer of
  `src/src/interactions-js.js` (a state machine on `actor.userData`);
* the polled "Enhanced" `VRControllerManager` of `src/unnamed/part_001`
  (per-frame `updateGrab`, `updatePinchScale`, `updateViewPosition`,
  laser-pointer loops);
* the event-driven `VRControllerManager` of `src/src/controllers-js.js`
  (first class in the file: `beginGrab`/`endGrab`/`beginPinch`/`endPinch`/
  `processGestures`/`onControllerDisconnected`);
* the desktop manipulator switchboard `setupInteractionModes` of
  `src/src/interactions-js.js`.

JavaScript numbers are embedded as exact rationals; `Math.sqrt` is embedded
as `Real.sqrt` on the rational squared distance.  Where the source only ever
*compares* Euclidean distances (the laser pointer), the comparisons are
embedded on squared distances; the bridging lemmas `jsDist_lt_jsDist_iff`
and `jsDist_lt_two_iff` below prove that this is the same relation, since
`Real.sqrt` is strictly monotone on nonnegative arguments.
-/

/-- A 3-component vector, as produced by `controller.position` /
`actor.getPosition()` in the source. -/
abbrev Vec3 : Type := ℚ × ℚ × ℚ

/-- Componentwise vector addition (the source writes it out per component). -/
def vadd (a b : Vec3) : Vec3 := (a.1 + b.1, a.2.1 + b.2.1, a.2.2 + b.2.2)

/-- Componentwise vector subtraction, the `delta` computations of the source. -/
def vsub (a b : Vec3) : Vec3 := (a.1 - b.1, a.2.1 - b.2.1, a.2.2 - b.2.2)

/-- The squared Euclidean distance `dx*dx + dy*dy + dz*dz` that every distance
computation in the source forms before taking `Math.sqrt`. -/
def sqDist (p q : Vec3) : ℚ :=
  (q.1 - p.1) ^ 2 + (q.2.1 - p.2.1) ^ 2 + (q.2.2 - p.2.2) ^ 2

/-- `Math.sqrt(dx*dx + dy*dy + dz*dz)`: the Euclidean distance between two
controller / actor positions, exactly as the source computes it. -/
noncomputable def jsDist (p q : Vec3) : ℝ := Real.sqrt ((sqDist p q : ℚ) : ℝ)

/-- Handedness of a controller (`inputSource.handedness`), the identity under
which the controller registry stores at most one live device per hand. -/
inductive Hand
  | left
  | right
deriving DecidableEq, Repr

/-! ## The event-driven actor layer of `src/src/interactions-js.js`

`makeActorInteractive` and the `setupVRInteractions` handlers communicate
through the single dynamic dictionary `actor.userData`.  The structure below
has one optional field per key that any handler writes; a JS object literal
holds exactly the keys written, so a wholesale assignment
`actor.userData = \x7b ... \x7d` resets every other field to `none`. -/

/-- The JS value stored under the dynamic key `initialScale` of
`actor.userData`: `makeActorInteractive` stores the 3-component array
`actor.getScale()`, while the `pinchstart` handler stores the scalar
`actor.getScale()[0]` under the same key. -/
inductive ScaleVal
  | arr (v : Vec3)
  | num (q : ℚ)
deriving DecidableEq, Repr

/-- The `actor.userData` dictionary of `src/src/interactions-js.js`. -/
structure UserData where
  grabbing : Option Bool := none
  startPosition : Option Vec3 := none
  objectStartPosition : Option Vec3 := none
  pinching : Option Bool := none
  initialScale : Option ScaleVal := none
  initialPosition : Option Vec3 := none
  initialRotation : Option Vec3 := none
  selected : Option Bool := none
deriving DecidableEq, Repr

/-- The state of the primary renderable: transform (position, scale,
rotation), its `userData` dictionary, and a count of redraw requests issued
via `renderWindow.render()`. -/
structure ActorState where
  pos : Vec3
  scale : Vec3
  rotation : Vec3
  userData : UserData
  renders : Nat
deriving DecidableEq, Repr

/-- `makeActorInteractive` (src/src/interactions-js.js, lines 440-470): a
wholesale assignment `actor.userData = \x7b initialPosition, initialScale,
initialRotation, selected \x7d` snapshotting the current transform. -/
def makeActorInteractive (a : ActorState) : ActorState :=
  { a with userData :=
      { initialScale := some (ScaleVal.arr a.scale),
        initialPosition := some a.pos,
        initialRotation := some a.rotation,
        selected := some false } }

/-- `actor.reset` as installed by `makeActorInteractive`: sequentially
`setPosition(...userData.initialPosition)`, `setScale(...userData.initialScale)`,
`setRotation(...userData.initialRotation)`, then one render.  Spreading a
missing key (`undefined`) or a non-array value throws a `TypeError`; the
embedding returns `none` for such a throw (the set calls already executed
before the throwing spread are then lost with the exception). -/
def actorReset (a : ActorState) : Option ActorState :=
  match a.userData.initialPosition with
  | none => none
  | some p =>
    match a.userData.initialScale with
    | some (ScaleVal.arr s) =>
      match a.userData.initialRotation with
      | none => none
      | some r =>
        some { a with pos := p, scale := s, rotation := r, renders := a.renders + 1 }
    | _ => none

/-- The `selectstart` handler of `setupVRInteractions`
(src/src/interactions-js.js, lines 93-103): a wholesale assignment
`actors.primary.userData = \x7b grabbing: true, startPosition, objectStartPosition \x7d`
— every key not listed (including the `makeActorInteractive` snapshot) is
dropped. -/
def vrSelectstart (cpos : Vec3) (a : ActorState) : ActorState :=
  { a with userData :=
      { grabbing := some true,
        startPosition := some cpos,
        objectStartPosition := some a.pos } }

/-- The `selectend` handler (lines 105-110): if `userData.grabbing` is truthy,
set it to `false` (a single-field mutation, keys are preserved). -/
def vrSelectend (a : ActorState) : ActorState :=
  if a.userData.grabbing = some true then
    { a with userData := { a.userData with grabbing := some false } }
  else a

/-- The `pinchstart` handler (lines 113-122): a spread assignment
`userData = \x7b ...userData, pinching: true, initialScale: getScale()[0] \x7d` —
it preserves the other keys, but overwrites the `initialScale` key with a
scalar. -/
def vrPinchstart (a : ActorState) : ActorState :=
  { a with userData :=
      { a.userData with pinching := some true,
                        initialScale := some (ScaleVal.num a.scale.1) } }

/-- The `pinchend` handler (lines 124-129): sets `userData.pinching = false`. -/
def vrPinchend (a : ActorState) : ActorState :=
  { a with userData := { a.userData with pinching := some false } }

/-- The grab half of the `setControllerMovedCallback` handler (lines 133-155):
while `userData.grabbing` is truthy, set the actor position to
`objectStartPosition + (controller.position - startPosition)`.  When
`grabbing` is `true` the two positions are always present (they are written
by the same assignment); the fallback branch is unreachable. -/
def vrMovedGrabPhase (cpos : Vec3) (a : ActorState) : ActorState :=
  if a.userData.grabbing = some true then
    match a.userData.startPosition, a.userData.objectStartPosition with
    | some sp, some osp => { a with pos := vadd osp (vsub cpos sp) }
    | _, _ => a
  else a

/-- The pinch half of the same handler (lines 157-166): while
`userData.pinching` is truthy, set a uniform scale
`initialScale * (controller.pinchScale || 1.0)`.  When `pinching` is `true`
the `initialScale` key always holds the scalar written by `pinchstart`. -/
def vrMovedPinchPhase (pinchScale : Option ℚ) (a : ActorState) : ActorState :=
  if a.userData.pinching = some true then
    match a.userData.initialScale with
    | some (ScaleVal.num i0) =>
      let ns := i0 * pinchScale.getD 1
      { a with scale := (ns, ns, ns) }
    | _ => a
  else a

/-- One `controllermove` callback invocation: the grab phase followed by the
pinch phase, in source order. -/
def vrMoved (cpos : Vec3) (pinchScale : Option ℚ) (a : ActorState) : ActorState :=
  vrMovedPinchPhase pinchScale (vrMovedGrabPhase cpos a)

/-- The input events of the `setupVRInteractions` machine. -/
inductive VREvent
  | selectstart (cpos : Vec3)
  | selectend
  | pinchstart
  | pinchend
  | moved (cpos : Vec3) (pinchScale : Option ℚ)

/-- Dispatch one event to its handler. -/
def vrStep (e : VREvent) (a : ActorState) : ActorState :=
  match e with
  | VREvent.selectstart cpos => vrSelectstart cpos a
  | VREvent.selectend => vrSelectend a
  | VREvent.pinchstart => vrPinchstart a
  | VREvent.pinchend => vrPinchend a
  | VREvent.moved cpos ps => vrMoved cpos ps a

/-- Run a list of events in arrival order. -/
def vrRun (es : List VREvent) (a : ActorState) : ActorState :=
  es.foldl (fun s e => vrStep e s) a

/-- A list of bare controller-moved events (no `pinchScale` field on the
controller). -/
def movesOf (cs : List Vec3) : List VREvent :=
  cs.map (fun c => VREvent.moved c none)

/-! ## The polled grab loop of `src/unnamed/part_001`
(`VRControllerManager.setupGrabInteraction`, lines 277-341). -/

/-- A live controller as the polled manager sees it: the two boolean flags
maintained by the `selectstart`/`selectend`/`squeezestart`/`squeezeend`
listeners, and its current world position. -/
structure GCtrl where
  triggerPressed : Bool
  gripPressed : Bool
  pos : Vec3
deriving DecidableEq, Repr

/-- `this.grabbedObject` of the polled variant: the owning controller
(identified by handedness), the constant `offsetPosition` `[0,0,0]`, and the
actor position recorded (and never used again) at grab start. -/
structure GrabbedObject where
  hand : Hand
  offsetPosition : Vec3
  initialPosition : Vec3
deriving DecidableEq, Repr

/-- The state read and written by one `updateGrab` poll of
`src/unnamed/part_001`. -/
structure P1GrabState where
  isXRActive : Bool
  left : Option GCtrl
  right : Option GCtrl
  grabbedObject : Option GrabbedObject
  actorPos : Vec3
  renders : Nat
deriving DecidableEq, Repr

/-- `this.controllers[hand]` of the polled manager. -/
def ctrlOf (st : P1GrabState) : Hand → Option GCtrl
  | Hand.left => st.left
  | Hand.right => st.right

/-- Optional-chained flag read `controller?.triggerPressed` (falsy when the
slot is empty). -/
def trigHeld (c : Option GCtrl) : Bool :=
  c.elim false (fun x => x.triggerPressed)

/-- One `updateGrab` poll (src/unnamed/part_001, lines 284-331): bail out
unless XR is active; start a grab with the right controller if its trigger is
pressed and nothing is grabbed, else with the left under the same conditions;
then, if an object is grabbed, release it when the owner's trigger is up,
otherwise snap the actor to `controllerPos + offsetPosition` and render.
The source reads the stored controller object reference; while the owner is
connected that is exactly the registry slot of its hand, and no theorem
below exercises the disconnected-owner branch (modelled as a no-op poll). -/
def updateGrab (st : P1GrabState) : P1GrabState :=
  if st.isXRActive = false then st
  else
    let st1 :=
      if trigHeld st.right && st.grabbedObject.isNone then
        { st with grabbedObject := some ⟨Hand.right, (0, 0, 0), st.actorPos⟩ }
      else if trigHeld st.left && st.grabbedObject.isNone then
        { st with grabbedObject := some ⟨Hand.left, (0, 0, 0), st.actorPos⟩ }
      else st
    match st1.grabbedObject with
    | none => st1
    | some g =>
      match ctrlOf st1 g.hand with
      | none => st1
      | some c =>
        if c.triggerPressed = false then { st1 with grabbedObject := none }
        else
          { st1 with actorPos := vadd c.pos g.offsetPosition, renders := st1.renders + 1 }

/-- The `removed` branch of `handleInputSourcesChange`
(src/unnamed/part_001, lines 65-73): it clears the registry slot of the
removed hand and touches nothing else. -/
def p1HandleRemoved (h : Hand) (st : P1GrabState) : P1GrabState :=
  match h with
  | Hand.left => { st with left := none }
  | Hand.right => { st with right := none }

/-! ## The per-frame camera orbit loop of `src/unnamed/part_001`
(`VRControllerManager.updateViewPosition`, lines 185-230; the identical
second variant is at src/src/controllers-js.js lines 449-476).  The vtk.js
camera calls `elevation(x)` / `azimuth(x)` add `x` degrees to the
accumulated orbit angles; the embedding tracks the two accumulators. -/

/-- The flag state of a connected controller as the view loop reads it. -/
structure ViewCtrl where
  triggerPressed : Bool
  gripPressed : Bool
deriving DecidableEq, Repr

/-- State of one view-loop tick: XR session flag, registry, accumulated
camera orbit angles, and the count of redraw requests. -/
structure ViewState where
  isXRActive : Bool
  left : Option ViewCtrl
  right : Option ViewCtrl
  elevationAngle : ℚ
  azimuthAngle : ℚ
  renders : Nat
deriving DecidableEq, Repr

/-- `this.viewMoveSpeed = 0.05`. -/
def viewMoveSpeed : ℚ := 1 / 20

/-- Optional-chained `controller?.triggerPressed`. -/
def vTrig (c : Option ViewCtrl) : Bool := c.elim false (fun x => x.triggerPressed)

/-- Optional-chained `controller?.gripPressed`. -/
def vGrip (c : Option ViewCtrl) : Bool := c.elim false (fun x => x.gripPressed)

/-- One `updateViewPosition` call: left trigger adds `+speed*2` elevation,
right trigger `-speed*2`; left grip adds `+speed*2` azimuth, right grip
`-speed*2`; one render is issued iff any of the four actions fired. -/
def updateViewPosition (st : ViewState) : ViewState :=
  let elev1 := if vTrig st.left then st.elevationAngle + viewMoveSpeed * 2 else st.elevationAngle
  let elev2 := if vTrig st.right then elev1 - viewMoveSpeed * 2 else elev1
  let az1 := if vGrip st.left then st.azimuthAngle + viewMoveSpeed * 2 else st.azimuthAngle
  let az2 := if vGrip st.right then az1 - viewMoveSpeed * 2 else az1
  let needsRender := vTrig st.left || vTrig st.right || vGrip st.left || vGrip st.right
  { st with elevationAngle := elev2, azimuthAngle := az2,
            renders := if needsRender then st.renders + 1 else st.renders }

/-- One tick of the `animate` loop installed by `initialize`
(src/unnamed/part_001, lines 158-164): `updateViewPosition` runs only while
`isXRActive`. -/
def p1AnimateTick (st : ViewState) : ViewState :=
  if st.isXRActive then updateViewPosition st else st

/-- Indicator of a boolean as a rational, to express net orbit deltas. -/
def boolInd (b : Bool) : ℚ := if b then 1 else 0

/-! ## The desktop manipulator switchboard
(`setupInteractionModes`, src/src/interactions-js.js lines 340-432).

The four manipulators are shared mutable objects; `setButton` mutates the
stored object, and the `rotate`/`inspect`/default branches re-add the rotate
manipulator *without* resetting its button.  vtk.js trackball manipulators
default to `button: 1` at `newInstance`, and the scale manipulator is
created with `button: 1` explicitly. -/

/-- The four manipulator objects created once by `setupInteractionModes`. -/
inductive Manip
  | rotateM
  | panM
  | zoomM
  | scaleM
deriving DecidableEq, Repr

/-- The switchboard state: the `button` field of each shared manipulator
object, the manipulators currently added to the interactor style (in add
order), the `currentMode` variable, and the redraw count. -/
structure ModeState where
  rotateButton : Nat
  panButton : Nat
  zoomButton : Nat
  scaleButton : Nat
  added : List Manip
  currentMode : String
  renders : Nat
deriving DecidableEq, Repr

/-- `modes.ROTATE`. -/
def modeRotate : String := "rotate"

/-- `modes.SCALE`. -/
def modeScale : String := "scale"

/-- `modes.TRANSLATE`. -/
def modeTranslate : String := "translate"

/-- `modes.INSPECT`. -/
def modeInspect : String := "inspect"

/-- `setMode(mode)` (lines 382-421): `removeAllMouseManipulators()`, then the
switch re-adds the shared manipulators for the chosen mode, calling
`setButton` exactly where the source does (the rotate manipulator's button is
*not* reset in the `rotate`, `inspect` and default branches); finally
`currentMode = mode` and one render. -/
def setMode (mode : String) (st : ModeState) : ModeState :=
  let st0 := { st with added := [] }
  let st1 :=
    if mode = modeRotate then
      { st0 with added := [Manip.rotateM, Manip.panM, Manip.zoomM],
                 panButton := 2, zoomButton := 3 }
    else if mode = modeScale then
      { st0 with added := [Manip.scaleM, Manip.panM, Manip.rotateM],
                 panButton := 2, rotateButton := 3 }
    else if mode = modeTranslate then
      { st0 with added := [Manip.panM, Manip.rotateM, Manip.zoomM],
                 panButton := 1, rotateButton := 2, zoomButton := 3 }
    else if mode = modeInspect then
      { st0 with added := [Manip.rotateM, Manip.zoomM], zoomButton := 3 }
    else
      { st0 with added := [Manip.rotateM, Manip.panM, Manip.zoomM],
                 panButton := 2, zoomButton := 3 }
  { st1 with currentMode := mode, renders := st1.renders + 1 }

/-- The current `button` field of a shared manipulator object. -/
def buttonOf (st : ModeState) : Manip → Nat
  | Manip.rotateM => st.rotateButton
  | Manip.panM => st.panButton
  | Manip.zoomM => st.zoomButton
  | Manip.scaleM => st.scaleButton

/-- The effective binding set: each currently added manipulator paired with
the button its shared object is bound to right now. -/
def bindings (st : ModeState) : List (Manip × Nat) :=
  st.added.map (fun m => (m, buttonOf st m))

/-- The rotate binding set named by the spec: left button (1) rotates, middle
(2) pans, right (3) zooms. -/
def rotateBindings : List (Manip × Nat) :=
  [(Manip.rotateM, 1), (Manip.panM, 2), (Manip.zoomM, 3)]

/-- The switchboard state right after the manipulator objects are created
(every `button` at its `newInstance` value 1) and before the initial
`setMode(currentMode)` call; `currentMode` is initialized to `modes.ROTATE`. -/
def modeStateRaw : ModeState :=
  { rotateButton := 1, panButton := 1, zoomButton := 1, scaleButton := 1,
    added := [], currentMode := modeRotate, renders := 0 }

/-- The state returned to the UI by `setupInteractionModes`: the initial
`setMode(currentMode)` call has run. -/
def initModeState : ModeState := setMode modeRotate modeStateRaw

/-! ## The event-driven `VRControllerManager` of `src/src/controllers-js.js`
(first class in the file, lines 7-357).  Controllers are identified by
handedness (at most one live object per hand; `===` comparisons against the
session's stored controller reference coincide with handedness equality
while no reconnection happens, and no theorem below involves one). -/

/-- `this.grabbedObject` of the event-driven manager. -/
structure CJGrab where
  hand : Hand
  initialPosition : Vec3
  initialControllerPosition : Vec3
deriving DecidableEq, Repr

/-- `this.pinchObject` of the event-driven manager: the actor's uniform scale
at pinch start. -/
structure CJPinch where
  initialScale : ℝ

/-- The manager state: the registry (each slot holding the stored
controller's current position), the two optional sessions,
`this.pinchStartDistance`, the single scene actor's transform and color,
whether the renderer holds any actor at all (`findClosestActor` returns the
first actor when the scene is nonempty), and the redraw count. -/
structure CJState where
  left : Option Vec3
  right : Option Vec3
  grabbedObject : Option CJGrab
  pinchObject : Option CJPinch
  pinchStartDistance : ℝ
  actorPos : Vec3
  actorScale : ℝ
  actorColor : Vec3
  scene : Bool
  renders : Nat

/-- `this.controllers[hand]` (position of the stored controller). -/
def cjSlot (st : CJState) : Hand → Option Vec3
  | Hand.left => st.left
  | Hand.right => st.right

/-- Store a value into one registry slot. -/
def cjSetSlot (h : Hand) (v : Option Vec3) (st : CJState) : CJState :=
  match h with
  | Hand.left => { st with left := v }
  | Hand.right => { st with right := v }

/-- `beginGrab(controller)` (lines 158-186): `findClosestActor` returns the
first scene actor; if one exists the method *unconditionally overwrites*
`this.grabbedObject` with a fresh session (actor position and controller
position at grab start), recolors the actor `(1.0, 0.8, 0.1)` and renders. -/
def cjBeginGrab (h : Hand) (st : CJState) : CJState :=
  if st.scene then
    match cjSlot st h with
    | some cpos =>
      { st with grabbedObject := some ⟨h, st.actorPos, cpos⟩,
                actorColor := (1, 4 / 5, 1 / 10), renders := st.renders + 1 }
    | none => st
  else st

/-- `endGrab(controller)` (lines 192-205): only if the active grab is owned
by this controller, restore the color `(1.0, 1.0, 1.0)`, clear the session
and render. -/
def cjEndGrab (h : Hand) (st : CJState) : CJState :=
  match st.grabbedObject with
  | some g =>
    if g.hand = h then
      { st with actorColor := (1, 1, 1), grabbedObject := none, renders := st.renders + 1 }
    else st
  | none => st

/-- `beginPinch(controller)` (lines 211-242): only if both controllers are
connected, record `this.pinchStartDistance` as the Euclidean distance between
them; then, if the scene has an actor, open `this.pinchObject` with the
actor's current uniform scale, recolor `(0.1, 0.8, 1.0)` and render. -/
noncomputable def cjBeginPinch (st : CJState) : CJState :=
  match st.left, st.right with
  | some lp, some rp =>
    let st1 := { st with pinchStartDistance := jsDist lp rp }
    if st1.scene then
      { st1 with pinchObject := some ⟨st1.actorScale⟩,
                 actorColor := (1 / 10, 4 / 5, 1), renders := st1.renders + 1 }
    else st1
  | _, _ => st

/-- `endPinch(controller)` (lines 248-261): if a pinch session exists
(whichever controller released), restore the color, clear `this.pinchObject`
and render. -/
def cjEndPinch (st : CJState) : CJState :=
  match st.pinchObject with
  | some _ =>
    { st with actorColor := (1, 1, 1), pinchObject := none, renders := st.renders + 1 }
  | none => st

/-- `updateGrabbedObjectPosition(controller)` (lines 267-285): set the actor
position to `initialPosition + (controller.position - initialControllerPosition)`
and render.  It is only invoked for the owning controller, whose current
position is its registry slot. -/
def cjUpdateGrabbedObjectPosition (st : CJState) : CJState :=
  match st.grabbedObject with
  | some g =>
    match cjSlot st g.hand with
    | some cpos =>
      { st with actorPos := vadd g.initialPosition (vsub cpos g.initialControllerPosition),
                renders := st.renders + 1 }
    | none => st
  | none => st

/-- `processGestures()` (lines 290-315): only when both controllers and a
pinch session exist, set the actor's uniform scale to
`(currentDistance / pinchStartDistance) * initialScale` and render. -/
noncomputable def cjProcessGestures (st : CJState) : CJState :=
  match st.left, st.right, st.pinchObject with
  | some lp, some rp, some po =>
    { st with actorScale := jsDist lp rp / st.pinchStartDistance * po.initialScale,
              renders := st.renders + 1 }
  | _, _, _ => st

/-- `onControllerMoved(event)` (lines 142-152): record the controller's new
position, update the grabbed object when this controller owns the grab, then
`processGestures()`. -/
noncomputable def cjOnControllerMoved (h : Hand) (p : Vec3) (st : CJState) : CJState :=
  let st1 := cjSetSlot h (some p) st
  let st2 :=
    match st1.grabbedObject with
    | some g => if g.hand = h then cjUpdateGrabbedObjectPosition st1 else st1
    | none => st1
  cjProcessGestures st2

/-- `onControllerDisconnected(event)` (lines 122-136): clear the registry
slot; then, only when the grab session is owned by this controller, release
it via `endGrab`.  The pinch session is never touched here. -/
def cjOnControllerDisconnected (h : Hand) (st : CJState) : CJState :=
  let st1 := cjSetSlot h none st
  match st1.grabbedObject with
  | some g => if g.hand = h then cjEndGrab h st1 else st1
  | none => st1

/-- A sequence of `onControllerMoved` events for one hand's controller, in
arrival order (each event carrying the controller's new position). -/
noncomputable def cjMovedRun (ps : List Vec3) (h : Hand) (st : CJState) : CJState :=
  ps.foldl (fun s p => cjOnControllerMoved h p s) st

/-! ## The polled pinch loop of `src/unnamed/part_001`
(`VRControllerManager.setupPinchGesture`, lines 232-275). -/

/-- A controller as the pinch loop reads it: grip flag and world position. -/
structure PCtrl where
  gripPressed : Bool
  pos : Vec3

/-- The state read and written by one `updatePinchScale` poll:
`this.pinchStartDistance` (0 in the constructor and never reset),
`this.initialScale`, the actor's current uniform scale, and the redraw
count. -/
structure P1PinchState where
  pinchStartDistance : ℝ
  initialScale : ℝ
  actorScale : ℝ
  renders : Nat

/-- One `updatePinchScale` poll (lines 238-263): bail out unless both
controllers exist with both grips pressed; if `pinchStartDistance === 0`,
record the baseline distance and the actor's current scale; otherwise set the
actor's uniform scale to `(currentDistance / pinchStartDistance) * initialScale`
and render.  Nothing ever resets `pinchStartDistance` to 0. -/
noncomputable def updatePinchScale (lc rc : Option PCtrl) (st : P1PinchState) : P1PinchState :=
  match lc, rc with
  | some l, some r =>
    if l.gripPressed && r.gripPressed then
      let currentDistance := jsDist l.pos r.pos
      if st.pinchStartDistance = 0 then
        { st with pinchStartDistance := currentDistance, initialScale := st.actorScale }
      else
        { st with actorScale := currentDistance / st.pinchStartDistance * st.initialScale,
                  renders := st.renders + 1 }
    else st
  | _, _ => st

/-- Run a sequence of polls, each with the controller pair visible on that
frame. -/
noncomputable def runPinch (frames : List (Option PCtrl × Option PCtrl))
    (st : P1PinchState) : P1PinchState :=
  frames.foldl (fun s f => updatePinchScale f.1 f.2 s) st

/-! ## The laser-pointer loop of `src/unnamed/part_001`
(`VRControllerManager.enableLaserPointer`, lines 343-449).

The source compares only Euclidean distances (`distance < closestDistance`,
`closestDistance < 2.0`); the embedding performs the same comparisons on
squared distances (threshold `2.0 ^ 2 = 4`), which the monotonicity lemmas
`jsDist_lt_jsDist_iff` and `jsDist_lt_two_iff` prove equivalent.
`getWorldDirection` is fetched and required non-null but never used by the
distance test; the embedding assumes both position and direction exist. -/

/-- A pickable actor: object identity (for the `===` and `_originalColor`
bookkeeping), its center, current color, and the `_originalColor` property
saved on first highlight (absent until then). -/
structure LActor where
  idA : Nat
  center : Vec3
  color : Vec3
  originalColor : Option Vec3
deriving DecidableEq, Repr

/-- A controller as the laser loop reads it: its world position. -/
structure LCtrl where
  pos : Vec3
deriving DecidableEq, Repr

/-- State of the laser loop: XR flag, registry, the pickable actors, the
`highlightedActors` map (per hand, by actor identity), and the redraw
count. -/
structure LaserState where
  isXRActive : Bool
  left : Option LCtrl
  right : Option LCtrl
  actors : List LActor
  highlightedLeft : Option Nat
  highlightedRight : Option Nat
  renders : Nat
deriving DecidableEq, Repr

/-- The yellowish highlight `(1.0, 0.8, 0.2)` applied by `highlightActor` —
the same constant for both hands. -/
def laserHighlightColor : Vec3 := (1, 4 / 5, 1 / 5)

/-- `highlightActor(actor, true)`: save `_originalColor` on first highlight,
then set the highlight color. -/
def hlOn (a : LActor) : LActor :=
  { a with originalColor := some (a.originalColor.getD a.color),
           color := laserHighlightColor }

/-- `highlightActor(actor, false)`: restore `_originalColor` when it was
saved (the saved value itself is kept). -/
def hlOff (a : LActor) : LActor :=
  match a.originalColor with
  | some c => { a with color := c }
  | none => a

/-- Apply a mutation to the actor object with the given identity. -/
def updateActor (i : Nat) (f : LActor → LActor) (l : List LActor) : List LActor :=
  l.map (fun a => if a.idA = i then f a else a)

/-- One step of the `forEach` scan in `checkRayIntersection`: keep the
strictly closer actor (`distance < closestDistance`, starting from
`Infinity`, so the first actor always replaces the empty accumulator and
ties keep the earlier actor). -/
def scanStep (cpos : Vec3) (acc : Option (Nat × ℚ)) (a : LActor) : Option (Nat × ℚ) :=
  match acc with
  | none => some (a.idA, sqDist cpos a.center)
  | some (bi, bd) =>
    if sqDist cpos a.center < bd then some (a.idA, sqDist cpos a.center) else some (bi, bd)

/-- The scan over all pickable actors. -/
def closestScan (cpos : Vec3) (l : List LActor) : Option (Nat × ℚ) :=
  l.foldl (scanStep cpos) none

/-- `checkRayIntersection(controller)` (lines 376-406): the closest pickable
actor, returned only when its distance beats the fixed threshold
(`closestDistance < 2.0`, i.e. squared distance `< 4`). -/
def checkRayIntersection (cpos : Vec3) (l : List LActor) : Option Nat :=
  match closestScan cpos l with
  | some (i, d) => if d < 4 then some i else none
  | none => none

/-- `highlightedActors[hand]`. -/
def highlightedOf (st : LaserState) : Hand → Option Nat
  | Hand.left => st.highlightedLeft
  | Hand.right => st.highlightedRight

/-- Write `highlightedActors[hand]`. -/
def setHighlighted (st : LaserState) (h : Hand) (v : Option Nat) : LaserState :=
  match h with
  | Hand.left => { st with highlightedLeft := v }
  | Hand.right => { st with highlightedRight := v }

/-- The laser loop's registry lookup `this.controllers[hand]`. -/
def lCtrlOf (st : LaserState) : Hand → Option LCtrl
  | Hand.left => st.left
  | Hand.right => st.right

/-- The per-hand body of the `laserLoop` `forEach` (lines 419-442): skip a
missing controller; on a hit different from the current highlight,
unhighlight the previous actor (if any), highlight the new one and record
it; on a miss, restore and clear any current highlight.  Each
`highlightActor` call ends in one render. -/
def laserHand (h : Hand) (st : LaserState) : LaserState :=
  match lCtrlOf st h with
  | none => st
  | some c =>
    match checkRayIntersection c.pos st.actors with
    | some i =>
      if highlightedOf st h = some i then st
      else
        let st1 :=
          match highlightedOf st h with
          | some p => { st with actors := updateActor p hlOff st.actors,
                                renders := st.renders + 1 }
          | none => st
        let st2 := { st1 with actors := updateActor i hlOn st1.actors,
                              renders := st1.renders + 1 }
        setHighlighted st2 h (some i)
    | none =>
      match highlightedOf st h with
      | some p =>
        setHighlighted { st with actors := updateActor p hlOff st.actors,
                                 renders := st.renders + 1 } h none
      | none => st

/-- One `laserLoop` tick: nothing while XR is inactive, else the left hand is
processed before the right (`['left', 'right'].forEach`). -/
def laserTick (st : LaserState) : LaserState :=
  if st.isXRActive then laserHand Hand.right (laserHand Hand.left st) else st

/-! ## Concrete states used by the counterexamples and witnesses below. -/

/-- An unknown mode string, as the UI could deliver. -/
def modeBanana : String := "banana"

/-- An actor before `makeActorInteractive`: position `(1,2,3)`, uniform scale
`2`, orientation `(0,10,0)`, no `userData` yet. -/
def c5Actor : ActorState :=
  { pos := (1, 2, 3), scale := (2, 2, 2), rotation := (0, 10, 0),
    userData := {}, renders := 0 }

/-- Polled-grab frame 1: XR active, only the right controller connected at
the origin with its trigger pressed, nothing grabbed, actor at `(5,5,5)`. -/
def p1CexFrame1 : P1GrabState :=
  { isXRActive := true, left := none, right := some ⟨true, false, (0, 0, 0)⟩,
    grabbedObject := none, actorPos := (5, 5, 5), renders := 0 }

/-- Polled-grab frame 2: after the first poll the trigger has been released
(`selectend` cleared the flag); the controller never moved. -/
def p1CexFrame2 : P1GrabState :=
  { updateGrab p1CexFrame1 with right := some ⟨false, false, (0, 0, 0)⟩ }

/-- Event-driven manager with both controllers connected, a scene actor at
`(0,0,0)` and no sessions: the stage for a pinch. -/
def cjPinchDemo : CJState :=
  { left := some (0, 0, 0), right := some (1, 0, 0), grabbedObject := none,
    pinchObject := none, pinchStartDistance := 0, actorPos := (0, 0, 0),
    actorScale := 1, actorColor := (1, 1, 1), scene := true, renders := 0 }

/-- Event-driven manager staged for a pinch whose controller positions have
the demo distances: left at `(1,2,3)`, right at `(2,2,3)` (distance 1),
actor scale 3. -/
def cjPinchDemo2 : CJState :=
  { left := some (1, 2, 3), right := some (2, 2, 3), grabbedObject := none,
    pinchObject := none, pinchStartDistance := 0, actorPos := (0, 0, 0),
    actorScale := 3, actorColor := (1, 1, 1), scene := true, renders := 0 }

/-- Event-driven manager with both controllers connected and a scene actor at
`(5,5,5)`: the stage for two competing grabs. -/
def cjGrabDemo : CJState :=
  { left := some (0, 0, 0), right := some (2, 0, 0), grabbedObject := none,
    pinchObject := none, pinchStartDistance := 0, actorPos := (5, 5, 5),
    actorScale := 1, actorColor := (1, 1, 1), scene := true, renders := 0 }

/-- Event-driven manager with an active left-hand grab session. -/
def cjHeldDemo : CJState :=
  { left := some (3, 0, 0), right := none,
    grabbedObject := some ⟨Hand.left, (5, 5, 5), (0, 0, 0)⟩,
    pinchObject := some ⟨1⟩, pinchStartDistance := 1, actorPos := (5, 5, 5),
    actorScale := 1, actorColor := (1, 1, 1), scene := true, renders := 0 }

/-- View-loop state: XR active, left trigger and right grip held. -/
def viewDemo : ViewState :=
  { isXRActive := true, left := some ⟨true, false⟩, right := some ⟨false, true⟩,
    elevationAngle := 0, azimuthAngle := 0, renders := 0 }

/-- Laser state: two controllers, two pickable actors with distinct base
colors, no highlight yet.  The left controller is nearest to actor `0`, the
right controller nearest to actor `1`, both within the threshold. -/
def laserDemo : LaserState :=
  { isXRActive := true, left := some ⟨(0, 2, 3)⟩, right := some ⟨(10, 2, 3)⟩,
    actors := [⟨0, (1, 2, 3), (1 / 2, 1 / 2, 1 / 2), none⟩,
               ⟨1, (9, 2, 3), (1 / 4, 1 / 4, 1 / 4), none⟩],
    highlightedLeft := none, highlightedRight := none, renders := 0 }

/-- Polled-grab state with an existing right-hand session whose owner still
holds the trigger, while the left trigger is also pressed. -/
def p1HeldDemo : P1GrabState :=
  { isXRActive := true, left := some ⟨true, false, (7, 0, 0)⟩,
    right := some ⟨true, false, (1, 1, 1)⟩,
    grabbedObject := some ⟨Hand.right, (0, 0, 0), (5, 5, 5)⟩,
    actorPos := (5, 5, 5), renders := 0 }

/-- Polled-grab state with no session and both triggers pressed on the same
frame. -/
def p1RaceDemo : P1GrabState :=
  { isXRActive := true, left := some ⟨true, false, (7, 0, 0)⟩,
    right := some ⟨true, false, (1, 1, 1)⟩,
    grabbedObject := none, actorPos := (3, 3, 3), renders := 0 }

/-! ## Bridging lemmas: comparing Euclidean distances is comparing squared
distances. -/

theorem sqDist_nonneg (p q : Vec3) : 0 ≤ sqDist p q := by
  unfold sqDist
  positivity

theorem jsDist_lt_jsDist_iff (p q r s : Vec3) :
    jsDist p q < jsDist r s ↔ sqDist p q < sqDist r s := by
  unfold jsDist
  rw [Real.sqrt_lt_sqrt_iff (by exact_mod_cast sqDist_nonneg p q)]
  exact_mod_cast Iff.rfl

theorem jsDist_lt_two_iff (p q : Vec3) : jsDist p q < 2 ↔ sqDist p q < 4 := by
  unfold jsDist
  rw [Real.sqrt_lt' (by norm_num : (0 : ℝ) < 2)]
  rw [show ((2 : ℝ) ^ 2) = ((4 : ℚ) : ℝ) by norm_num]
  exact_mod_cast Iff.rfl

/-! ## Distance evaluations used by concrete inputs. -/

theorem jsDist_demoA : jsDist (1, 2, 3) (2, 2, 3) = 1 := by
  have h : sqDist (1, 2, 3) (2, 2, 3) = 1 := by norm_num [sqDist]
  unfold jsDist
  rw [h]
  norm_num

theorem jsDist_demoB : jsDist (1, 2, 3) (3, 2, 3) = 2 := by
  have h : sqDist (1, 2, 3) (3, 2, 3) = 4 := by norm_num [sqDist]
  unfold jsDist
  rw [h]
  rw [show ((4 : ℚ) : ℝ) = 2 ^ 2 by norm_num]
  exact Real.sqrt_sq (by norm_num)

/-! ## Claim C5 -/

/-- C5: the claim says that after any sequence of grab and pinch gestures,
`reset()` restores the renderable's position, scale and orientation
bit-for-bit to the values captured by `makeActorInteractive` and requests a
redraw.  The code breaks its own snapshot: reset does work right after
`makeActorInteractive` (first conjunct), but the `selectstart` handler of
`setupVRInteractions` replaces `actor.userData` wholesale, deleting the
snapshot keys, so after one grab (even a completed one) `reset()` throws
while spreading `undefined` (second conjunct); likewise `pinchstart`
overwrites the `initialScale` key with a scalar, so after one pinch
`reset()` throws while spreading a number (third conjunct). -/
theorem c5_reset_broken :
    ((actorReset (makeActorInteractive c5Actor)).map ActorState.pos = some (1, 2, 3)
     ∧ (actorReset (makeActorInteractive c5Actor)).map ActorState.scale = some (2, 2, 2)
     ∧ (actorReset (makeActorInteractive c5Actor)).map ActorState.rotation = some (0, 10, 0)
     ∧ (actorReset (makeActorInteractive c5Actor)).map ActorState.renders = some 1)
    ∧ actorReset (vrSelectend (vrSelectstart (9, 9, 9) (makeActorInteractive c5Actor))) = none
    ∧ actorReset (vrPinchend (vrPinchstart (makeActorInteractive c5Actor))) = none := by
  decide

/-! ## Claim C8 -/

/-- C8: on every render-loop tick with an XR session active, a held left
trigger orbits the camera vertically one way and a held right trigger the
opposite way (net elevation delta `speed*2 * (left - right)`), a held left
grip orbits horizontally one way and a held right grip the opposite way (net
azimuth delta `speed*2 * (left - right)`), and exactly one redraw is issued
iff at least one of the four actions fired this tick. -/
theorem c8_view_orbit (st : ViewState) (hxr : st.isXRActive = true) :
    ((p1AnimateTick st).elevationAngle =
       st.elevationAngle + viewMoveSpeed * 2 * (boolInd (vTrig st.left) - boolInd (vTrig st.right)))
    ∧ ((p1AnimateTick st).azimuthAngle =
       st.azimuthAngle + viewMoveSpeed * 2 * (boolInd (vGrip st.left) - boolInd (vGrip st.right)))
    ∧ ((p1AnimateTick st).renders = st.renders + 1 ↔
       (vTrig st.left || vTrig st.right || vGrip st.left || vGrip st.right) = true)
    ∧ ((p1AnimateTick st).renders = st.renders ↔
       (vTrig st.left || vTrig st.right || vGrip st.left || vGrip st.right) = false) := by
  cases h1 : vTrig st.left <;> cases h2 : vTrig st.right <;>
    cases h3 : vGrip st.left <;> cases h4 : vGrip st.right <;>
      simp [p1AnimateTick, hxr, updateViewPosition, h1, h2, h3, h4, boolInd, viewMoveSpeed] <;>
      ring_nf <;> norm_num

/-- C8 witness: the theorem applied to a concrete tick with the left trigger
and the right grip held. -/
theorem c8_view_orbit_witness :
    (p1AnimateTick viewDemo).elevationAngle =
      viewDemo.elevationAngle +
        viewMoveSpeed * 2 * (boolInd (vTrig viewDemo.left) - boolInd (vTrig viewDemo.right))
    ∧ (p1AnimateTick viewDemo).renders = viewDemo.renders + 1 := by
  refine ⟨(c8_view_orbit viewDemo rfl).1, ?_⟩
  exact (c8_view_orbit viewDemo rfl).2.2.1.mpr rfl

/-! ## Claim C3 -/

/-- C3 counterexample: the claim says that `setMode(m)` followed by
`setMode('rotate')` always restores exactly the rotate binding set
(left=rotate, middle=pan, right=zoom) as after the initial default call.
After `setMode('scale')`, however, the shared rotate manipulator's button
was mutated to 3 and the rotate branch never resets it, so re-entering
rotate binds rotate to the right button (together with zoom) and leaves the
left button unbound. -/
theorem c3_counterexample :
    bindings (setMode modeRotate (setMode modeScale initModeState)) =
      [(Manip.rotateM, 3), (Manip.panM, 2), (Manip.zoomM, 3)]
    ∧ bindings (setMode modeRotate (setMode modeScale initModeState)) ≠ rotateBindings := by
  decide

/-- C3 amended: re-entering rotate after `setMode(m)` from the initial state
restores exactly the rotate binding set iff `m` is neither `'scale'` nor
`'translate'` — those two branches mutate the shared rotate manipulator's
button (to 3 resp. 2) and the rotate branch does not reset it. -/
theorem c3_rotate_reentry (m : String) :
    bindings (setMode modeRotate (setMode m initModeState)) = rotateBindings
      ↔ (m ≠ modeScale ∧ m ≠ modeTranslate) := by
  by_cases h1 : m = modeRotate
  · subst h1; decide
  · by_cases h2 : m = modeScale
    · subst h2; decide
    · by_cases h3 : m = modeTranslate
      · subst h3; decide
      · by_cases h4 : m = modeInspect
        · subst h4; decide
        · constructor
          · intro _
            exact ⟨h2, h3⟩
          · intro _
            simp only [setMode, if_neg h1, if_neg h2, if_neg h3, if_neg h4]
            simp [bindings, buttonOf, rotateBindings, initModeState, setMode, modeStateRaw]

/-- C3 witness: the amended theorem applied to the inspect mode, whose
re-entry does restore the rotate binding set. -/
theorem c3_rotate_reentry_witness :
    bindings (setMode modeRotate (setMode modeInspect initModeState)) = rotateBindings := by
  exact (c3_rotate_reentry modeInspect).mpr ⟨by decide, by decide⟩

/-! ## Claim C6 -/

/-- C6 counterexample: the claim says a mode string outside the four known
modes installs the rotate binding set.  From a state reached through
`setMode('scale')` the default branch re-adds the rotate manipulator with
its mutated button 3, so the resulting bindings are not the rotate set. -/
theorem c6_counterexample :
    bindings (setMode modeBanana (setMode modeScale initModeState)) ≠ rotateBindings := by
  decide

/-- C6 amended: an unknown mode string takes the default branch, which does
exactly what the rotate branch does, so from any state the resulting
bindings equal those of `setMode('rotate')` from the same state — and they
equal the rotate binding set whenever the shared rotate manipulator's button
is still 1 (as in the initial state); `getCurrentMode()` returns the
argument of the most recent `setMode` call, unknown strings included; and
before any user call the mode is `'rotate'`. -/
theorem c6_unknown_mode (m : String) (st : ModeState) :
    (m ≠ modeRotate → m ≠ modeScale → m ≠ modeTranslate → m ≠ modeInspect →
       bindings (setMode m st) = bindings (setMode modeRotate st))
    ∧ (m ≠ modeRotate → m ≠ modeScale → m ≠ modeTranslate → m ≠ modeInspect →
       st.rotateButton = 1 → bindings (setMode m st) = rotateBindings)
    ∧ (setMode m st).currentMode = m
    ∧ initModeState.currentMode = modeRotate := by
  refine ⟨?_, ?_, ?_, by decide⟩
  · intro h1 h2 h3 h4
    simp only [setMode, if_neg h1, if_neg h2, if_neg h3, if_neg h4, if_pos rfl]
    simp [bindings, buttonOf]
  · intro h1 h2 h3 h4 hb
    simp only [setMode, if_neg h1, if_neg h2, if_neg h3, if_neg h4]
    simp [bindings, buttonOf, rotateBindings, hb]
  · simp only [setMode]

/-- C6 witness: the amended theorem applied to the unknown string
`"banana"` from the initial state, where it does install the rotate set and
`getCurrentMode()` reports the unknown string. -/
theorem c6_unknown_mode_witness :
    bindings (setMode modeBanana initModeState) = rotateBindings
    ∧ (setMode modeBanana initModeState).currentMode = modeBanana := by
  refine ⟨(c6_unknown_mode modeBanana initModeState).2.1 (by decide) (by decide)
    (by decide) (by decide) (by decide), (c6_unknown_mode modeBanana initModeState).2.2.1⟩

/-! ## Helper lemmas for the polled grab loop. -/

theorem updateGrab_held (st : P1GrabState) (g : GrabbedObject) (c : GCtrl)
    (hxr : st.isXRActive = true) (hg : st.grabbedObject = some g)
    (hc : ctrlOf st g.hand = some c) (ht : c.triggerPressed = true) :
    (updateGrab st).grabbedObject = some g
    ∧ (updateGrab st).actorPos = vadd c.pos g.offsetPosition := by
  simp [updateGrab, hxr, hg, hc, ht]

theorem updateGrab_keeps (st : P1GrabState) (g : GrabbedObject) (c : GCtrl)
    (hg : st.grabbedObject = some g) (hc : ctrlOf st g.hand = some c)
    (ht : c.triggerPressed = true) :
    (updateGrab st).grabbedObject = some g := by
  cases hxr : st.isXRActive with
  | false => simp [updateGrab, hxr, hg]
  | true => exact (updateGrab_held st g c hxr hg hc ht).1

theorem updateGrab_no_replace (st : P1GrabState) (g : GrabbedObject)
    (hg : st.grabbedObject = some g) :
    (updateGrab st).grabbedObject = some g ∨ (updateGrab st).grabbedObject = none := by
  cases hxr : st.isXRActive with
  | false => left; simp [updateGrab, hxr, hg]
  | true =>
    cases hc : ctrlOf st g.hand with
    | none => left; simp [updateGrab, hxr, hg, hc]
    | some c =>
      cases ht : c.triggerPressed with
      | false => right; simp [updateGrab, hxr, hg, hc, ht]
      | true => left; simp [updateGrab, hxr, hg, hc, ht]

/-! ## Helper lemmas for the event machine of `setupVRInteractions`. -/

theorem vrMovedPinchPhase_pos (ps : Option ℚ) (a : ActorState) :
    (vrMovedPinchPhase ps a).pos = a.pos := by
  unfold vrMovedPinchPhase
  split
  · split <;> rfl
  · rfl

theorem vrMovedPinchPhase_userData (ps : Option ℚ) (a : ActorState) :
    (vrMovedPinchPhase ps a).userData = a.userData := by
  unfold vrMovedPinchPhase
  split
  · split <;> rfl
  · rfl

theorem vrMovedGrabPhase_userData (c : Vec3) (a : ActorState) :
    (vrMovedGrabPhase c a).userData = a.userData := by
  unfold vrMovedGrabPhase
  split
  · split <;> rfl
  · rfl

theorem vrMoved_userData (c : Vec3) (ps : Option ℚ) (a : ActorState) :
    (vrMoved c ps a).userData = a.userData := by
  rw [vrMoved, vrMovedPinchPhase_userData, vrMovedGrabPhase_userData]

theorem vrRun_moves_userData (cs : List Vec3) (a : ActorState) :
    (vrRun (movesOf cs) a).userData = a.userData := by
  induction cs generalizing a with
  | nil => rfl
  | cons c cs ih =>
    have hstep : vrRun (movesOf (c :: cs)) a = vrRun (movesOf cs) (vrMoved c none a) := rfl
    rw [hstep, ih, vrMoved_userData]

theorem vrMoved_pos (c : Vec3) (ps : Option ℚ) (a : ActorState) (sp osp : Vec3)
    (h1 : a.userData.grabbing = some true) (h2 : a.userData.startPosition = some sp)
    (h3 : a.userData.objectStartPosition = some osp) :
    (vrMoved c ps a).pos = vadd osp (vsub c sp) := by
  rw [vrMoved, vrMovedPinchPhase_pos]
  simp [vrMovedGrabPhase, h1, h2, h3]

theorem vrRun_moves_append_pos (a0 : ActorState) (c0 clast : Vec3) (cs : List Vec3) :
    (vrRun (movesOf (cs ++ [clast])) (vrSelectstart c0 a0)).pos
      = vadd a0.pos (vsub clast c0) := by
  have hsplit : vrRun (movesOf (cs ++ [clast])) (vrSelectstart c0 a0)
      = vrMoved clast none (vrRun (movesOf cs) (vrSelectstart c0 a0)) := by
    unfold movesOf vrRun
    rw [List.map_append, List.foldl_append]
    rfl
  have hud := vrRun_moves_userData cs (vrSelectstart c0 a0)
  rw [hsplit]
  exact vrMoved_pos clast none _ c0 a0.pos (by rw [hud]; rfl) (by rw [hud]; rfl)
    (by rw [hud]; rfl)

/-! ## Helper lemmas for the event-driven manager's registry and sessions. -/

theorem cjSetSlot_grabbed (h : Hand) (v : Option Vec3) (st : CJState) :
    (cjSetSlot h v st).grabbedObject = st.grabbedObject := by
  cases h <;> rfl

theorem cjSetSlot_pinch (h : Hand) (v : Option Vec3) (st : CJState) :
    (cjSetSlot h v st).pinchObject = st.pinchObject := by
  cases h <;> rfl

theorem cjSlot_setSlot_same (h : Hand) (v : Option Vec3) (st : CJState) :
    cjSlot (cjSetSlot h v st) h = v := by
  cases h <;> rfl

theorem cjEndGrab_pinch (h : Hand) (st : CJState) :
    (cjEndGrab h st).pinchObject = st.pinchObject := by
  unfold cjEndGrab
  split
  · split <;> rfl
  · rfl

theorem cjEndGrab_slot (h h' : Hand) (st : CJState) :
    cjSlot (cjEndGrab h st) h' = cjSlot st h' := by
  cases h' <;> (unfold cjEndGrab; split; · split <;> rfl
                · rfl)

theorem cjSetSlot_keeps (h : Hand) (v : Option Vec3) (st : CJState) :
    (cjSetSlot h v st).grabbedObject = st.grabbedObject
    ∧ (cjSetSlot h v st).pinchObject = st.pinchObject
    ∧ (cjSetSlot h v st).pinchStartDistance = st.pinchStartDistance
    ∧ (cjSetSlot h v st).actorPos = st.actorPos
    ∧ (cjSetSlot h v st).actorScale = st.actorScale
    ∧ (cjSetSlot h v st).scene = st.scene := by
  cases h <;> exact ⟨rfl, rfl, rfl, rfl, rfl, rfl⟩

theorem cjEndGrab_clears (st : CJState) (g : CJGrab) (h : Hand)
    (hg : st.grabbedObject = some g) (hh : g.hand = h) :
    (cjEndGrab h st).grabbedObject = none ∧ (cjEndGrab h st).actorPos = st.actorPos := by
  unfold cjEndGrab
  simp only [hg]
  rw [if_pos hh]
  exact ⟨rfl, rfl⟩

theorem cjUpdateGrabbedObjectPosition_keeps (st : CJState) :
    (cjUpdateGrabbedObjectPosition st).grabbedObject = st.grabbedObject
    ∧ (cjUpdateGrabbedObjectPosition st).pinchObject = st.pinchObject
    ∧ (cjUpdateGrabbedObjectPosition st).pinchStartDistance = st.pinchStartDistance
    ∧ (cjUpdateGrabbedObjectPosition st).actorScale = st.actorScale
    ∧ (cjUpdateGrabbedObjectPosition st).left = st.left
    ∧ (cjUpdateGrabbedObjectPosition st).right = st.right := by
  unfold cjUpdateGrabbedObjectPosition
  split
  · split <;> exact ⟨rfl, rfl, rfl, rfl, rfl, rfl⟩
  · exact ⟨rfl, rfl, rfl, rfl, rfl, rfl⟩

theorem cjUpdateGrabbedObjectPosition_pos (st : CJState) (g : CJGrab) (cpos : Vec3)
    (hg : st.grabbedObject = some g) (hc : cjSlot st g.hand = some cpos) :
    (cjUpdateGrabbedObjectPosition st).actorPos
      = vadd g.initialPosition (vsub cpos g.initialControllerPosition) := by
  unfold cjUpdateGrabbedObjectPosition
  simp only [hg, hc]

theorem cjProcessGestures_keeps (st : CJState) :
    (cjProcessGestures st).grabbedObject = st.grabbedObject
    ∧ (cjProcessGestures st).pinchObject = st.pinchObject
    ∧ (cjProcessGestures st).pinchStartDistance = st.pinchStartDistance
    ∧ (cjProcessGestures st).actorPos = st.actorPos
    ∧ (cjProcessGestures st).left = st.left
    ∧ (cjProcessGestures st).right = st.right := by
  unfold cjProcessGestures
  split <;> exact ⟨rfl, rfl, rfl, rfl, rfl, rfl⟩

theorem cjProcessGestures_scale (st : CJState) (po : CJPinch) (lp rp : Vec3)
    (hl : st.left = some lp) (hr : st.right = some rp) (hpo : st.pinchObject = some po) :
    (cjProcessGestures st).actorScale
      = jsDist lp rp / st.pinchStartDistance * po.initialScale := by
  unfold cjProcessGestures
  simp only [hl, hr, hpo]

theorem cjProcessGestures_noop_scale (st : CJState) (hpo : st.pinchObject = none) :
    (cjProcessGestures st).actorScale = st.actorScale := by
  unfold cjProcessGestures
  cases st.left <;> cases st.right <;> (try simp only [hpo]) <;> rfl

theorem cjOnControllerMoved_reduce (h : Hand) (p : Vec3) (st : CJState) :
    cjOnControllerMoved h p st
      = cjProcessGestures (cjUpdateGrabbedObjectPosition (cjSetSlot h (some p) st))
    ∨ cjOnControllerMoved h p st = cjProcessGestures (cjSetSlot h (some p) st) := by
  simp only [cjOnControllerMoved]
  cases hgo : (cjSetSlot h (some p) st).grabbedObject with
  | none =>
    right
    simp only [hgo]
  | some g =>
    by_cases hh : g.hand = h
    · left
      simp only [hgo]
      rw [if_pos hh]
    · right
      simp only [hgo]
      rw [if_neg hh]

theorem cjOnControllerMoved_keepPinch (h : Hand) (p : Vec3) (st : CJState) :
    (cjOnControllerMoved h p st).pinchObject = st.pinchObject
    ∧ (cjOnControllerMoved h p st).pinchStartDistance = st.pinchStartDistance := by
  rcases cjOnControllerMoved_reduce h p st with hr | hr <;> rw [hr]
  · exact ⟨by rw [(cjProcessGestures_keeps _).2.1, (cjUpdateGrabbedObjectPosition_keeps _).2.1,
        cjSetSlot_pinch],
      by rw [(cjProcessGestures_keeps _).2.2.1, (cjUpdateGrabbedObjectPosition_keeps _).2.2.1,
        (cjSetSlot_keeps h (some p) st).2.2.1]⟩
  · exact ⟨by rw [(cjProcessGestures_keeps _).2.1, cjSetSlot_pinch],
      by rw [(cjProcessGestures_keeps _).2.2.1, (cjSetSlot_keeps h (some p) st).2.2.1]⟩

theorem cjOnControllerMoved_left_keep (p : Vec3) (st : CJState) :
    (cjOnControllerMoved Hand.right p st).left = st.left := by
  rcases cjOnControllerMoved_reduce Hand.right p st with hr | hr <;> rw [hr]
  · rw [(cjProcessGestures_keeps _).2.2.2.2.1,
      (cjUpdateGrabbedObjectPosition_keeps _).2.2.2.2.1]
    rfl
  · rw [(cjProcessGestures_keeps _).2.2.2.2.1]
    rfl

theorem cjOnControllerMoved_noop_scale (h : Hand) (p : Vec3) (st : CJState)
    (hpo : st.pinchObject = none) :
    (cjOnControllerMoved h p st).actorScale = st.actorScale := by
  rcases cjOnControllerMoved_reduce h p st with hr | hr <;> rw [hr]
  · rw [cjProcessGestures_noop_scale _
        (by rw [(cjUpdateGrabbedObjectPosition_keeps _).2.1, cjSetSlot_pinch]; exact hpo),
      (cjUpdateGrabbedObjectPosition_keeps _).2.2.2.1,
      (cjSetSlot_keeps h (some p) st).2.2.2.2.1]
  · rw [cjProcessGestures_noop_scale _ (by rw [cjSetSlot_pinch]; exact hpo),
      (cjSetSlot_keeps h (some p) st).2.2.2.2.1]

theorem cjOnControllerMoved_grab (st : CJState) (g : CJGrab) (h : Hand) (p : Vec3)
    (hg : st.grabbedObject = some g) (hh : g.hand = h) :
    (cjOnControllerMoved h p st).grabbedObject = some g
    ∧ (cjOnControllerMoved h p st).actorPos
        = vadd g.initialPosition (vsub p g.initialControllerPosition) := by
  have h1 : (cjSetSlot h (some p) st).grabbedObject = some g := by
    rw [cjSetSlot_grabbed, hg]
  have hred : cjOnControllerMoved h p st
      = cjProcessGestures (cjUpdateGrabbedObjectPosition (cjSetSlot h (some p) st)) := by
    simp only [cjOnControllerMoved, h1]
    rw [if_pos hh]
  rw [hred]
  constructor
  · rw [(cjProcessGestures_keeps _).1, (cjUpdateGrabbedObjectPosition_keeps _).1, h1]
  · rw [(cjProcessGestures_keeps _).2.2.2.1]
    exact cjUpdateGrabbedObjectPosition_pos (cjSetSlot h (some p) st) g p h1
      (by rw [hh, cjSlot_setSlot_same])

theorem cjOnControllerMoved_scale (st : CJState) (po : CJPinch) (lp p : Vec3)
    (hpo : st.pinchObject = some po) (hl : st.left = some lp) :
    (cjOnControllerMoved Hand.right p st).actorScale
      = jsDist lp p / st.pinchStartDistance * po.initialScale := by
  rcases cjOnControllerMoved_reduce Hand.right p st with hr | hr <;> rw [hr]
  · rw [cjProcessGestures_scale _ po lp p
        (by rw [(cjUpdateGrabbedObjectPosition_keeps _).2.2.2.2.1]; exact hl)
        (by rw [(cjUpdateGrabbedObjectPosition_keeps _).2.2.2.2.2]; rfl)
        (by rw [(cjUpdateGrabbedObjectPosition_keeps _).2.1, cjSetSlot_pinch]; exact hpo),
      (cjUpdateGrabbedObjectPosition_keeps _).2.2.1,
      (cjSetSlot_keeps Hand.right (some p) st).2.2.1]
  · rw [cjProcessGestures_scale _ po lp p (by exact hl) (by rfl)
        (by rw [cjSetSlot_pinch]; exact hpo),
      (cjSetSlot_keeps Hand.right (some p) st).2.2.1]

theorem cjMovedRun_grab (ps : List Vec3) (st : CJState) (g : CJGrab) (h : Hand)
    (hg : st.grabbedObject = some g) (hh : g.hand = h) :
    (cjMovedRun ps h st).grabbedObject = some g := by
  induction ps generalizing st with
  | nil => exact hg
  | cons q qs ih =>
    have hstep : cjMovedRun (q :: qs) h st = cjMovedRun qs h (cjOnControllerMoved h q st) := rfl
    rw [hstep]
    exact ih _ (cjOnControllerMoved_grab st g h q hg hh).1

theorem cjMovedRun_right_keep (mids : List Vec3) (st : CJState) :
    (cjMovedRun mids Hand.right st).pinchObject = st.pinchObject
    ∧ (cjMovedRun mids Hand.right st).pinchStartDistance = st.pinchStartDistance
    ∧ (cjMovedRun mids Hand.right st).left = st.left := by
  induction mids generalizing st with
  | nil => exact ⟨rfl, rfl, rfl⟩
  | cons q qs ih =>
    have hstep : cjMovedRun (q :: qs) Hand.right st
        = cjMovedRun qs Hand.right (cjOnControllerMoved Hand.right q st) := rfl
    obtain ⟨i1, i2, i3⟩ := ih (cjOnControllerMoved Hand.right q st)
    rw [hstep]
    exact ⟨by rw [i1, (cjOnControllerMoved_keepPinch Hand.right q st).1],
      by rw [i2, (cjOnControllerMoved_keepPinch Hand.right q st).2],
      by rw [i3, cjOnControllerMoved_left_keep]⟩

theorem cjBeginPinch_state (st : CJState) (lp rp : Vec3)
    (hl : st.left = some lp) (hr : st.right = some rp) (hs : st.scene = true) :
    (cjBeginPinch st).pinchObject = some ⟨st.actorScale⟩
    ∧ (cjBeginPinch st).pinchStartDistance = jsDist lp rp
    ∧ (cjBeginPinch st).left = st.left := by
  simp only [cjBeginPinch, hl, hr]
  rw [if_pos (show ({ st with pinchStartDistance := jsDist lp rp } : CJState).scene = true
    from hs)]
  exact ⟨rfl, rfl, rfl⟩

theorem cjEndPinch_state (st : CJState) (po : CJPinch) (hpo : st.pinchObject = some po) :
    (cjEndPinch st).pinchObject = none ∧ (cjEndPinch st).actorScale = st.actorScale := by
  unfold cjEndPinch
  simp only [hpo]
  exact ⟨trivial, trivial⟩


/-! ## Claim C1 -/

/-- C1 counterexample: the claim says that after a matching trigger-down /
trigger-up pair the renderable's position equals its position at grab start
plus the total controller displacement.  In the polled `updateGrab` of
`src/unnamed/part_001` the actor is snapped to `controllerPos + [0,0,0]`
instead: with the actor at `(5,5,5)`, the right trigger pressed for one poll
by a controller resting at the origin (zero displacement), and released
before the next poll, the actor ends at `(0,0,0)`, not at
`(5,5,5) + (0,0,0)`. -/
theorem c1_counterexample :
    (updateGrab p1CexFrame1).grabbedObject = some ⟨Hand.right, (0, 0, 0), (5, 5, 5)⟩
    ∧ (updateGrab p1CexFrame2).grabbedObject = none
    ∧ (updateGrab p1CexFrame2).actorPos = (0, 0, 0)
    ∧ vadd (5, 5, 5) (vsub (0, 0, 0) (0, 0, 0)) = ((5 : ℚ), 5, 5)
    ∧ (updateGrab p1CexFrame2).actorPos ≠ ((5 : ℚ), 5, 5) := by
  refine ⟨?_, ?_, ?_, ?_, ?_⟩ <;>
    norm_num [updateGrab, p1CexFrame1, p1CexFrame2, trigHeld, ctrlOf, vadd, vsub,
      Prod.ext_iff]

/-- C1 amended: in both event-driven grab machines the claim holds.  In
`setupVRInteractions` (src/src/interactions-js.js), between a trigger-down at
controller position `c0` and the matching trigger-up, exactly one grab
session is active (the `grabbing` flag stays `true` and the recorded session
start data never changes under moves), the final actor position is the
position at grab start plus the total controller displacement
`clast - c0`, trigger-up deactivates the session and leaves the position.
In the `VRControllerManager` of src/src/controllers-js.js, `beginGrab`
records the actor and controller positions, every move of the owning
controller keeps that one session and `updateGrabbedObjectPosition` sets the
actor to `initialPosition + (controller - initialControllerPosition)`, and
`endGrab` clears the session leaving the actor at grab-start position plus
the total displacement `plast - c0`.  Only in the polled variant of
`src/unnamed/part_001` does the claim fail: the session is likewise unique,
but each poll while the owner's trigger is held snaps the actor to
`controllerPos + offsetPosition` with a zero offset, so the final position
is the controller's last held position instead. -/
theorem c1_grab_machines :
    (∀ (a0 : ActorState) (c0 clast : Vec3) (cs ds : List Vec3),
       (vrRun (movesOf ds) (vrSelectstart c0 a0)).userData.grabbing = some true
       ∧ (vrRun (movesOf ds) (vrSelectstart c0 a0)).userData.startPosition = some c0
       ∧ (vrRun (movesOf ds) (vrSelectstart c0 a0)).userData.objectStartPosition = some a0.pos
       ∧ (vrRun (movesOf (cs ++ [clast])) (vrSelectstart c0 a0)).pos
           = vadd a0.pos (vsub clast c0)
       ∧ (vrSelectend (vrRun (movesOf (cs ++ [clast])) (vrSelectstart c0 a0))).userData.grabbing
           = some false
       ∧ (vrSelectend (vrRun (movesOf (cs ++ [clast])) (vrSelectstart c0 a0))).pos
           = vadd a0.pos (vsub clast c0))
    ∧ (∀ (st : CJState) (h : Hand) (c0 plast : Vec3) (ps ds : List Vec3),
       st.scene = true → cjSlot st h = some c0 →
       (cjMovedRun ds h (cjBeginGrab h st)).grabbedObject = some ⟨h, st.actorPos, c0⟩
       ∧ (cjMovedRun (ps ++ [plast]) h (cjBeginGrab h st)).actorPos
           = vadd st.actorPos (vsub plast c0)
       ∧ (cjEndGrab h (cjMovedRun (ps ++ [plast]) h (cjBeginGrab h st))).grabbedObject = none
       ∧ (cjEndGrab h (cjMovedRun (ps ++ [plast]) h (cjBeginGrab h st))).actorPos
           = vadd st.actorPos (vsub plast c0))
    ∧ (∀ (st : P1GrabState) (g : GrabbedObject) (c : GCtrl),
       st.isXRActive = true → st.grabbedObject = some g → ctrlOf st g.hand = some c →
       c.triggerPressed = true →
       (updateGrab st).actorPos = vadd c.pos g.offsetPosition
       ∧ (updateGrab st).grabbedObject = some g) := by
  refine ⟨?_, ?_, ?_⟩
  · intro a0 c0 clast cs ds
    have hud := vrRun_moves_userData ds (vrSelectstart c0 a0)
    have hudF := vrRun_moves_userData (cs ++ [clast]) (vrSelectstart c0 a0)
    have hpos := vrRun_moves_append_pos a0 c0 clast cs
    have hgrab : (vrRun (movesOf (cs ++ [clast])) (vrSelectstart c0 a0)).userData.grabbing
        = some true := by rw [hudF]; rfl
    refine ⟨by rw [hud]; rfl, by rw [hud]; rfl, by rw [hud]; rfl, hpos, ?_, ?_⟩
    · simp [vrSelectend, hgrab]
    · simp [vrSelectend, hgrab, hpos]
  · intro st h c0 plast ps ds hs hc
    have hbg : (cjBeginGrab h st).grabbedObject = some ⟨h, st.actorPos, c0⟩ := by
      simp [cjBeginGrab, hs, hc]
    have hgrun : ∀ es : List Vec3,
        (cjMovedRun es h (cjBeginGrab h st)).grabbedObject = some ⟨h, st.actorPos, c0⟩ :=
      fun es => cjMovedRun_grab es _ ⟨h, st.actorPos, c0⟩ h hbg rfl
    have hsplit : cjMovedRun (ps ++ [plast]) h (cjBeginGrab h st)
        = cjOnControllerMoved h plast (cjMovedRun ps h (cjBeginGrab h st)) := by
      unfold cjMovedRun
      rw [List.foldl_append]
      rfl
    have hpos : (cjMovedRun (ps ++ [plast]) h (cjBeginGrab h st)).actorPos
        = vadd st.actorPos (vsub plast c0) := by
      rw [hsplit]
      exact (cjOnControllerMoved_grab _ ⟨h, st.actorPos, c0⟩ h plast (hgrun ps) rfl).2
    have hend := cjEndGrab_clears _ ⟨h, st.actorPos, c0⟩ h (hgrun (ps ++ [plast])) rfl
    exact ⟨hgrun ds, hpos, hend.1, by rw [hend.2, hpos]⟩
  · intro st g c hxr hg hc ht
    exact ⟨(updateGrab_held st g c hxr hg hc ht).2, (updateGrab_held st g c hxr hg hc ht).1⟩

/-- C1 witness: the event-driven half of the amended theorem applied to a
left-hand grab on `cjGrabDemo` (actor at `(5,5,5)`, controller from `(0,0,0)`
to `(4,0,0)`), and the polled half applied to a held right-hand session with
the controller at `(1,1,1)`. -/
theorem c1_grab_machines_witness :
    (cjEndGrab Hand.left (cjMovedRun ([] ++ [((4 : ℚ), 0, 0)]) Hand.left
        (cjBeginGrab Hand.left cjGrabDemo))).actorPos
      = vadd (5, 5, 5) (vsub (4, 0, 0) (0, 0, 0))
    ∧ (updateGrab p1HeldDemo).actorPos = vadd (1, 1, 1) (0, 0, 0)
    ∧ (updateGrab p1HeldDemo).grabbedObject = some ⟨Hand.right, (0, 0, 0), (5, 5, 5)⟩ := by
  refine ⟨?_, ?_⟩
  · exact (c1_grab_machines.2.1 cjGrabDemo Hand.left (0, 0, 0) (4, 0, 0) [] []
      rfl rfl).2.2.2
  · exact c1_grab_machines.2.2 p1HeldDemo ⟨Hand.right, (0, 0, 0), (5, 5, 5)⟩
      ⟨true, false, (1, 1, 1)⟩ rfl rfl rfl rfl

/-! ## Claim C7 -/

/-- C7 counterexample: the claim says a second trigger-down while a grab is
active never replaces the existing session.  In the event-driven manager of
`src/src/controllers-js.js`, `beginGrab` overwrites `this.grabbedObject`
unconditionally: after a left-hand grab, a right-hand trigger-down replaces
the session with one owned by the right controller. -/
theorem c7_counterexample :
    (cjBeginGrab Hand.left cjGrabDemo).grabbedObject
      = some ⟨Hand.left, (5, 5, 5), (0, 0, 0)⟩
    ∧ (cjBeginGrab Hand.right (cjBeginGrab Hand.left cjGrabDemo)).grabbedObject
      = some ⟨Hand.right, (5, 5, 5), (2, 0, 0)⟩ := by
  exact ⟨rfl, rfl⟩

/-- C7 amended: at most one grab session exists at any time in both variants
(a single optional slot holds it).  In the polled variant of
`src/unnamed/part_001`, a trigger-down creates a session only when none is
active: while the owner's trigger stays pressed the session is preserved
unchanged, and a poll can only keep or release an existing session, never
replace it.  In the event-driven variant of `src/src/controllers-js.js`,
`beginGrab` instead overwrites unconditionally: whenever the scene has an
actor and the pressing controller is connected, the session after
`beginGrab` is owned by that controller, existing session or not. -/
theorem c7_session_uniqueness :
    (∀ (st : P1GrabState) (g : GrabbedObject) (c : GCtrl),
       st.grabbedObject = some g → ctrlOf st g.hand = some c → c.triggerPressed = true →
       (updateGrab st).grabbedObject = some g)
    ∧ (∀ (st : P1GrabState) (g : GrabbedObject),
       st.grabbedObject = some g →
       (updateGrab st).grabbedObject = some g ∨ (updateGrab st).grabbedObject = none)
    ∧ (∀ (st : CJState) (h : Hand) (cpos : Vec3),
       st.scene = true → cjSlot st h = some cpos →
       (cjBeginGrab h st).grabbedObject = some ⟨h, st.actorPos, cpos⟩) := by
  refine ⟨fun st g c hg hc ht => updateGrab_keeps st g c hg hc ht,
          fun st g hg => updateGrab_no_replace st g hg, ?_⟩
  intro st h cpos hs hc
  simp [cjBeginGrab, hs, hc]

/-- C7 witness: the amended theorem applied to a held right-hand session in
the polled variant and to an overwriting `beginGrab` in the event-driven
variant. -/
theorem c7_session_uniqueness_witness :
    (updateGrab p1HeldDemo).grabbedObject = some ⟨Hand.right, (0, 0, 0), (5, 5, 5)⟩
    ∧ (cjBeginGrab Hand.left cjHeldDemo).grabbedObject
      = some ⟨Hand.left, (5, 5, 5), (3, 0, 0)⟩ := by
  exact ⟨c7_session_uniqueness.1 p1HeldDemo ⟨Hand.right, (0, 0, 0), (5, 5, 5)⟩
      ⟨true, false, (1, 1, 1)⟩ rfl rfl rfl,
    c7_session_uniqueness.2.2 cjHeldDemo Hand.left (3, 0, 0) rfl rfl⟩

/-! ## Claim C10 -/

/-- C10: when no grab is active and both triggers are pressed on the same
poll, the right controller is checked first and takes ownership of the grab
session; the left controller acquires it only when the right controller's
trigger is not held. -/
theorem c10_right_priority :
    (∀ (st : P1GrabState) (c : GCtrl),
       st.isXRActive = true → st.grabbedObject = none → st.right = some c →
       c.triggerPressed = true →
       (updateGrab st).grabbedObject = some ⟨Hand.right, (0, 0, 0), st.actorPos⟩)
    ∧ (∀ (st : P1GrabState) (g : GrabbedObject),
       st.grabbedObject = none → (updateGrab st).grabbedObject = some g →
       g.hand = Hand.left → trigHeld st.right = false) := by
  constructor
  · intro st c hxr hg hr ht
    simp [updateGrab, hxr, hg, hr, ht, trigHeld, ctrlOf]
  · intro st g hg hres hleft
    cases hrc : st.right with
    | none => rw [trigHeld]; rfl
    | some c =>
      cases htc : c.triggerPressed with
      | false => rw [trigHeld]; exact htc
      | true =>
        exfalso
        cases hxr : st.isXRActive with
        | false =>
          rw [updateGrab, if_pos (by rw [hxr])] at hres
          rw [hg] at hres
          cases hres
        | true =>
          have hright : (updateGrab st).grabbedObject
              = some ⟨Hand.right, (0, 0, 0), st.actorPos⟩ := by
            simp [updateGrab, hxr, hg, hrc, htc, trigHeld, ctrlOf]
          rw [hright] at hres
          injection hres with h4
          rw [show g.hand = Hand.right from by rw [h4.symm]] at hleft
          cases hleft

/-- C10 witness: both triggers pressed on the same poll with no active grab;
the right controller takes the session. -/
theorem c10_right_priority_witness :
    (updateGrab p1RaceDemo).grabbedObject = some ⟨Hand.right, (0, 0, 0), (3, 3, 3)⟩ := by
  exact c10_right_priority.1 p1RaceDemo ⟨true, false, (1, 1, 1)⟩ rfl rfl rfl rfl

/-! ## Claim C4 -/

/-- C4 counterexample: the claim says disconnecting the controller that owns
the active PinchSession clears that session.  In the event-driven manager,
after `beginPinch` opened `this.pinchObject`, disconnecting the left
controller clears only its registry slot: the pinch session survives. -/
theorem c4_counterexample :
    (cjOnControllerDisconnected Hand.left (cjBeginPinch cjPinchDemo)).pinchObject.isSome = true
    ∧ (cjOnControllerDisconnected Hand.left (cjBeginPinch cjPinchDemo)).left = none := by
  exact ⟨rfl, rfl⟩

/-- C4 amended: in the event-driven manager of `src/src/controllers-js.js`,
disconnecting the controller that owns the active GrabSession does clear
that session and the registry slot, and nothing throws (the handler is a
total function); but a disconnect never clears the PinchSession — it
survives with its stale baseline until some `squeezeend` arrives.  In the
polled variant of `src/unnamed/part_001`, the removal branch of
`handleInputSourcesChange` clears only the registry slot and leaves any grab
session in place. -/
theorem c4_disconnect_sessions :
    (∀ (st : CJState) (g : CJGrab),
       st.grabbedObject = some g →
         (cjOnControllerDisconnected g.hand st).grabbedObject = none
       ∧ cjSlot (cjOnControllerDisconnected g.hand st) g.hand = none)
    ∧ (∀ (st : CJState) (h : Hand),
         (cjOnControllerDisconnected h st).pinchObject = st.pinchObject)
    ∧ (∀ (st : P1GrabState) (h : Hand),
         (p1HandleRemoved h st).grabbedObject = st.grabbedObject
       ∧ ctrlOf (p1HandleRemoved h st) h = none) := by
  refine ⟨?_, ?_, ?_⟩
  · intro st g hg
    have hg1 : (cjSetSlot g.hand none st).grabbedObject = some g := by
      rw [cjSetSlot_grabbed, hg]
    have hred : cjOnControllerDisconnected g.hand st
        = cjEndGrab g.hand (cjSetSlot g.hand none st) := by
      unfold cjOnControllerDisconnected
      simp [hg1]
    constructor
    · rw [hred]
      unfold cjEndGrab
      simp [hg1]
    · rw [hred, cjEndGrab_slot, cjSlot_setSlot_same]
  · intro st h
    unfold cjOnControllerDisconnected
    cases hgo : (cjSetSlot h none st).grabbedObject with
    | none => simp [hgo, cjSetSlot_pinch]
    | some g =>
      simp only [hgo]
      by_cases hh : g.hand = h
      · rw [if_pos hh, cjEndGrab_pinch, cjSetSlot_pinch]
      · rw [if_neg hh, cjSetSlot_pinch]
  · intro st h
    cases h <;> exact ⟨rfl, rfl⟩

/-- C4 witness: the amended theorem applied to a manager state whose active
grab is owned by the left hand: its disconnect clears the session and the
slot. -/
theorem c4_disconnect_sessions_witness :
    (cjOnControllerDisconnected Hand.left cjHeldDemo).grabbedObject = none
    ∧ cjSlot (cjOnControllerDisconnected Hand.left cjHeldDemo) Hand.left = none := by
  exact c4_disconnect_sessions.1 cjHeldDemo ⟨Hand.left, (5, 5, 5), (0, 0, 0)⟩ rfl


/-! ## Helper lemmas for the polled pinch loop. -/

theorem updatePinchScale_keep (lc rc : Option PCtrl) (st : P1PinchState)
    (h : st.pinchStartDistance ≠ 0) :
    (updatePinchScale lc rc st).pinchStartDistance = st.pinchStartDistance
    ∧ (updatePinchScale lc rc st).initialScale = st.initialScale := by
  cases lc with
  | none => exact ⟨rfl, rfl⟩
  | some l =>
    cases rc with
    | none => exact ⟨rfl, rfl⟩
    | some r =>
      simp only [updatePinchScale]
      by_cases hg : (l.gripPressed && r.gripPressed) = true
      · rw [if_pos hg, if_neg h]
        exact ⟨rfl, rfl⟩
      · rw [if_neg hg]
        exact ⟨rfl, rfl⟩

theorem runPinch_keep (frames : List (Option PCtrl × Option PCtrl)) (st : P1PinchState)
    (h : st.pinchStartDistance ≠ 0) :
    (runPinch frames st).pinchStartDistance = st.pinchStartDistance
    ∧ (runPinch frames st).initialScale = st.initialScale := by
  induction frames generalizing st with
  | nil => exact ⟨rfl, rfl⟩
  | cons f fs ih =>
    have hstep : runPinch (f :: fs) st = runPinch fs (updatePinchScale f.1 f.2 st) := rfl
    have h1 := updatePinchScale_keep f.1 f.2 st h
    have h2 := ih (updatePinchScale f.1 f.2 st) (by rw [h1.1]; exact h)
    rw [hstep, h2.1, h2.2, h1.1, h1.2]
    exact ⟨rfl, rfl⟩

/-! ## Claim C2 -/

/-- C2 counterexample: the claim says every pinch sequence multiplies the
scale captured at pinch start by the distance-change factor `k`, and that
releasing a grip merely ends the session.  In the polled `updatePinchScale`
of `src/unnamed/part_001` the baseline `pinchStartDistance` is never reset
on release, so a *second* pinch session reuses the first session's baseline:
after a first session that scaled the actor from 1 to 2 (distance 1m to 2m)
and a release, a new pinch at distance 1m whose distance never changes
(`k = 1`, scale at session start 2, so the claim predicts scale 2) snaps the
scale back to 1. -/
theorem c2_counterexample :
    (updatePinchScale (some ⟨true, (1, 2, 3)⟩) (some ⟨true, (2, 2, 3)⟩)
      (updatePinchScale (some ⟨false, (1, 2, 3)⟩) (some ⟨false, (4, 2, 3)⟩)
        (updatePinchScale (some ⟨true, (1, 2, 3)⟩) (some ⟨true, (3, 2, 3)⟩)
          (updatePinchScale (some ⟨true, (1, 2, 3)⟩) (some ⟨true, (2, 2, 3)⟩)
            ⟨0, 1, 1, 0⟩)))).actorScale = 1
    ∧ (updatePinchScale (some ⟨true, (1, 2, 3)⟩) (some ⟨true, (3, 2, 3)⟩)
        (updatePinchScale (some ⟨true, (1, 2, 3)⟩) (some ⟨true, (2, 2, 3)⟩)
          ⟨0, 1, 1, 0⟩)).actorScale = 2
    ∧ (1 : ℝ) ≠ 2 := by
  have e1 : updatePinchScale (some ⟨true, (1, 2, 3)⟩) (some ⟨true, (2, 2, 3)⟩)
      (⟨0, 1, 1, 0⟩ : P1PinchState) = ⟨1, 1, 1, 0⟩ := by
    norm_num [updatePinchScale, jsDist_demoA]
  have e2 : updatePinchScale (some ⟨true, (1, 2, 3)⟩) (some ⟨true, (3, 2, 3)⟩)
      (⟨1, 1, 1, 0⟩ : P1PinchState) = ⟨1, 1, 2, 1⟩ := by
    norm_num [updatePinchScale, jsDist_demoB]
  have e3 : updatePinchScale (some ⟨false, (1, 2, 3)⟩) (some ⟨false, (4, 2, 3)⟩)
      (⟨1, 1, 2, 1⟩ : P1PinchState) = ⟨1, 1, 2, 1⟩ := by
    norm_num [updatePinchScale]
  have e4 : updatePinchScale (some ⟨true, (1, 2, 3)⟩) (some ⟨true, (2, 2, 3)⟩)
      (⟨1, 1, 2, 1⟩ : P1PinchState) = ⟨1, 1, 1, 2⟩ := by
    norm_num [updatePinchScale, jsDist_demoA]
  refine ⟨?_, ?_, by norm_num⟩
  · rw [e1, e2, e3, e4]
  · rw [e1, e2]

/-- C2 amended: in the event-driven `VRControllerManager` of
src/src/controllers-js.js the claim holds for every pinch session:
`beginPinch` re-captures the baseline distance and the scale at pinch start
on every squeezestart, each move multiplies that captured scale by the
current distance factor `k`, `endPinch` clears the session without touching
the scale, and no scale updates happen while no session is open.  In the
polled variant of `src/unnamed/part_001` only the *first* session (baseline
`pinchStartDistance = 0`) obeys the law: once both grips are held at a
nonzero distance the baseline and the scale at pinch start are captured, and
any later both-grip frame whose distance is `k` times the baseline sets the
scale to `k` times the captured scale — whatever frames happened in between;
frames with a grip released or a controller missing change nothing, so
releasing ends the session without touching the scale.  A later polled
session, however, reuses the stale baseline and initial scale of the first
one (see the counterexample). -/
theorem c2_pinch_scale :
    (∀ (st0 : P1PinchState) (l0 r0 lf rf : PCtrl)
       (frames : List (Option PCtrl × Option PCtrl)) (k : ℝ),
       st0.pinchStartDistance = 0 →
       l0.gripPressed = true → r0.gripPressed = true →
       jsDist l0.pos r0.pos ≠ 0 →
       lf.gripPressed = true → rf.gripPressed = true →
       jsDist lf.pos rf.pos = k * jsDist l0.pos r0.pos →
       (updatePinchScale (some lf) (some rf)
          (runPinch frames (updatePinchScale (some l0) (some r0) st0))).actorScale
         = k * st0.actorScale)
    ∧ (∀ (st : P1PinchState) (l r : PCtrl), (l.gripPressed && r.gripPressed) = false →
         updatePinchScale (some l) (some r) st = st)
    ∧ (∀ (st : P1PinchState) (rc : Option PCtrl), updatePinchScale none rc st = st)
    ∧ (∀ (st : P1PinchState) (lc : Option PCtrl), updatePinchScale lc none st = st)
    ∧ (∀ (st : CJState) (lp rp p : Vec3) (mids : List Vec3) (k : ℝ),
         st.left = some lp → st.right = some rp → st.scene = true →
         jsDist lp rp ≠ 0 → jsDist lp p = k * jsDist lp rp →
         (cjOnControllerMoved Hand.right p
            (cjMovedRun mids Hand.right (cjBeginPinch st))).actorScale
           = k * st.actorScale
         ∧ (cjEndPinch (cjOnControllerMoved Hand.right p
              (cjMovedRun mids Hand.right (cjBeginPinch st)))).actorScale
             = k * st.actorScale
         ∧ (cjEndPinch (cjOnControllerMoved Hand.right p
              (cjMovedRun mids Hand.right (cjBeginPinch st)))).pinchObject = none)
    ∧ (∀ (st : CJState) (h : Hand) (p : Vec3), st.pinchObject = none →
         (cjOnControllerMoved h p st).actorScale = st.actorScale
         ∧ (cjOnControllerMoved h p st).pinchObject = none) := by
  refine ⟨?_, ?_, ?_, ?_, ?_, ?_⟩
  · intro st0 l0 r0 lf rf frames k h0 hl0 hr0 hd0 hlf hrf hk
    have e1 : updatePinchScale (some l0) (some r0) st0
        = { st0 with pinchStartDistance := jsDist l0.pos r0.pos,
                     initialScale := st0.actorScale } := by
      simp only [updatePinchScale]
      rw [if_pos (by rw [hl0, hr0]; rfl), if_pos h0]
    rw [e1]
    have e2 := runPinch_keep frames
      { st0 with pinchStartDistance := jsDist l0.pos r0.pos, initialScale := st0.actorScale }
      hd0
    simp only [updatePinchScale]
    rw [if_pos (by rw [hlf, hrf]; rfl), if_neg (by rw [e2.1]; exact hd0)]
    dsimp only
    rw [e2.1, e2.2]
    dsimp only
    rw [hk, mul_div_assoc, div_self hd0, mul_one]
  · intro st l r hg
    simp only [updatePinchScale]
    rw [if_neg (by rw [hg]; exact Bool.false_ne_true)]
  · intro st rc
    cases rc <;> rfl
  · intro st lc
    cases lc <;> rfl
  · intro st lp rp p mids k hl hr hs hd0 hk
    obtain ⟨hpo, hpsd, hleft⟩ := cjBeginPinch_state st lp rp hl hr hs
    obtain ⟨m1, m2, m3⟩ := cjMovedRun_right_keep mids (cjBeginPinch st)
    have hpo1 : (cjMovedRun mids Hand.right (cjBeginPinch st)).pinchObject
        = some ⟨st.actorScale⟩ := by rw [m1, hpo]
    have hl1 : (cjMovedRun mids Hand.right (cjBeginPinch st)).left = some lp := by
      rw [m3, hleft, hl]
    have hpsd1 : (cjMovedRun mids Hand.right (cjBeginPinch st)).pinchStartDistance
        = jsDist lp rp := by rw [m2, hpsd]
    have hsc : (cjOnControllerMoved Hand.right p
        (cjMovedRun mids Hand.right (cjBeginPinch st))).actorScale = k * st.actorScale := by
      rw [cjOnControllerMoved_scale _ ⟨st.actorScale⟩ lp p hpo1 hl1, hpsd1, hk,
        mul_div_assoc, div_self hd0, mul_one]
    have hpo2 : (cjOnControllerMoved Hand.right p
        (cjMovedRun mids Hand.right (cjBeginPinch st))).pinchObject
        = some ⟨st.actorScale⟩ := by
      rw [(cjOnControllerMoved_keepPinch Hand.right p _).1, hpo1]
    have hend := cjEndPinch_state _ ⟨st.actorScale⟩ hpo2
    exact ⟨hsc, by rw [hend.2, hsc], hend.1⟩
  · intro st h p hpo
    exact ⟨cjOnControllerMoved_noop_scale h p st hpo,
      by rw [(cjOnControllerMoved_keepPinch h p st).1, hpo]⟩

/-- C2 witness: both session laws on concrete data — the polled first
session with grips at distance 1, then at distance 2 (`k = 2`) from actor
scale 3, and a controllers-js session on `cjPinchDemo2` (controllers at
distance 1, the right one moving to distance 2) from actor scale 3; each
ends at scale `2 * 3`. -/
theorem c2_pinch_scale_witness :
    (updatePinchScale (some ⟨true, (1, 2, 3)⟩) (some ⟨true, (3, 2, 3)⟩)
      (runPinch [] (updatePinchScale (some ⟨true, (1, 2, 3)⟩) (some ⟨true, (2, 2, 3)⟩)
        ⟨0, 1, 3, 0⟩))).actorScale = 2 * 3
    ∧ (cjOnControllerMoved Hand.right ((3 : ℚ), 2, 3) (cjMovedRun [] Hand.right
        (cjBeginPinch cjPinchDemo2))).actorScale = 2 * 3 := by
  refine ⟨?_, ?_⟩
  · exact c2_pinch_scale.1 ⟨0, 1, 3, 0⟩ ⟨true, (1, 2, 3)⟩ ⟨true, (2, 2, 3)⟩
      ⟨true, (1, 2, 3)⟩ ⟨true, (3, 2, 3)⟩ [] 2 rfl rfl rfl
      (by rw [jsDist_demoA]; norm_num) rfl rfl
      (by rw [jsDist_demoA, jsDist_demoB]; norm_num)
  · exact (c2_pinch_scale.2.2.2.2.1 cjPinchDemo2 (1, 2, 3) (2, 2, 3) (3, 2, 3) [] 2
      rfl rfl rfl (by rw [jsDist_demoA]; norm_num)
      (by rw [jsDist_demoA, jsDist_demoB]; norm_num)).1

/-! ## Helper lemmas for the laser-pointer scan. -/

theorem scanStep_isSome (cpos : Vec3) (acc : Option (Nat × ℚ)) (a : LActor) :
    (scanStep cpos acc a).isSome = true := by
  unfold scanStep
  cases acc with
  | none => rfl
  | some b =>
    obtain ⟨bi, bd⟩ := b
    dsimp only
    split <;> rfl

theorem foldl_scanStep_isSome (cpos : Vec3) (l : List LActor) (acc : Option (Nat × ℚ))
    (hacc : acc.isSome = true) : (l.foldl (scanStep cpos) acc).isSome = true := by
  induction l generalizing acc with
  | nil => exact hacc
  | cons a as ih => exact ih (scanStep cpos acc a) (scanStep_isSome cpos acc a)

theorem closestScan_none_nil (cpos : Vec3) (l : List LActor)
    (h : closestScan cpos l = none) : l = [] := by
  cases l with
  | nil => rfl
  | cons a as =>
    exfalso
    have hs : closestScan cpos (a :: as) = as.foldl (scanStep cpos) (scanStep cpos none a) := rfl
    have hi := foldl_scanStep_isSome cpos as (scanStep cpos none a) (scanStep_isSome cpos none a)
    rw [hs] at h
    rw [h] at hi
    cases hi

theorem foldl_scanStep_spec (cpos : Vec3) (l : List LActor) :
    ∀ (acc : Option (Nat × ℚ)) (i : Nat) (d : ℚ),
      l.foldl (scanStep cpos) acc = some (i, d) →
      (acc = some (i, d) ∨ ∃ a, a ∈ l ∧ a.idA = i ∧ sqDist cpos a.center = d)
      ∧ (∀ b, b ∈ l → d ≤ sqDist cpos b.center)
      ∧ (∀ j e, acc = some (j, e) → d ≤ e) := by
  induction l with
  | nil =>
    intro acc i d h
    simp only [List.foldl_nil] at h
    refine ⟨Or.inl h, by simp, ?_⟩
    intro j e hj
    rw [hj] at h
    injection h with h1
    injection h1 with h2 h3
    rw [h3]
  | cons a as ih =>
    intro acc i d h
    simp only [List.foldl_cons] at h
    obtain ⟨ih1, ih2, ih3⟩ := ih (scanStep cpos acc a) i d h
    have hda : d ≤ sqDist cpos a.center := by
      cases hacc : acc with
      | none =>
        exact ih3 a.idA (sqDist cpos a.center) (by rw [hacc]; rfl)
      | some b =>
        obtain ⟨bi, bd⟩ := b
        by_cases hlt : sqDist cpos a.center < bd
        · refine ih3 a.idA (sqDist cpos a.center) ?_
          rw [hacc]
          unfold scanStep
          dsimp only
          rw [if_pos hlt]
        · have hd_bd : d ≤ bd := ih3 bi bd (by rw [hacc]; unfold scanStep; dsimp only; rw [if_neg hlt])
          exact le_trans hd_bd (not_lt.mp hlt)
    refine ⟨?_, ?_, ?_⟩
    · rcases ih1 with h1 | ⟨b, hb, hbi, hbd⟩
      · cases hacc : acc with
        | none =>
          rw [hacc] at h1
          unfold scanStep at h1
          dsimp only at h1
          injection h1 with h1'
          injection h1' with h2 h3
          exact Or.inr ⟨a, List.mem_cons_self a as, h2, h3⟩
        | some b =>
          obtain ⟨bi, bd⟩ := b
          rw [hacc] at h1
          unfold scanStep at h1
          dsimp only at h1
          by_cases hlt : sqDist cpos a.center < bd
          · rw [if_pos hlt] at h1
            injection h1 with h1'
            injection h1' with h2 h3
            exact Or.inr ⟨a, List.mem_cons_self a as, h2, h3⟩
          · rw [if_neg hlt] at h1
            exact Or.inl h1
      · exact Or.inr ⟨b, List.mem_cons_of_mem a hb, hbi, hbd⟩
    · intro b hb
      rcases List.mem_cons.mp hb with hb | hb
      · rw [hb]
        exact hda
      · exact ih2 b hb
    · intro j e hj
      cases hacc : acc with
      | none => rw [hacc] at hj; cases hj
      | some b =>
        obtain ⟨bi, bd⟩ := b
        rw [hacc] at hj
        injection hj with hj'
        injection hj' with h2 h3
        rw [← h3]
        by_cases hlt : sqDist cpos a.center < bd
        · have hd1 : d ≤ sqDist cpos a.center :=
            ih3 a.idA (sqDist cpos a.center)
              (by rw [hacc]; unfold scanStep; dsimp only; rw [if_pos hlt])
          exact le_trans hd1 (le_of_lt hlt)
        · exact ih3 bi bd (by rw [hacc]; unfold scanStep; dsimp only; rw [if_neg hlt])

theorem checkRay_some_spec (cpos : Vec3) (l : List LActor) (i : Nat)
    (h : checkRayIntersection cpos l = some i) :
    ∃ a, a ∈ l ∧ a.idA = i ∧ sqDist cpos a.center < 4
      ∧ ∀ b, b ∈ l → sqDist cpos a.center ≤ sqDist cpos b.center := by
  unfold checkRayIntersection at h
  cases hs : closestScan cpos l with
  | none => rw [hs] at h; cases h
  | some pr =>
    obtain ⟨pi, pd⟩ := pr
    rw [hs] at h
    dsimp only at h
    by_cases hd : pd < 4
    · rw [if_pos hd] at h
      injection h with hip
      subst hip
      obtain ⟨h1, h2, _⟩ := foldl_scanStep_spec cpos l none pi pd hs
      rcases h1 with h1 | ⟨a, ha, hai, had⟩
      · cases h1
      · refine ⟨a, ha, hai, by rw [had]; exact hd, ?_⟩
        intro b hb
        rw [had]
        exact h2 b hb
    · rw [if_neg hd] at h
      cases h

theorem checkRay_none_spec (cpos : Vec3) (l : List LActor)
    (h : checkRayIntersection cpos l = none) :
    ∀ b, b ∈ l → 4 ≤ sqDist cpos b.center := by
  intro b hb
  unfold checkRayIntersection at h
  cases hs : closestScan cpos l with
  | none =>
    have := closestScan_none_nil cpos l hs
    subst this
    cases hb
  | some pr =>
    obtain ⟨pi, pd⟩ := pr
    rw [hs] at h
    dsimp only at h
    by_cases hd : pd < 4
    · rw [if_pos hd] at h
      cases h
    · obtain ⟨_, h2, _⟩ := foldl_scanStep_spec cpos l none pi pd hs
      exact le_trans (not_lt.mp hd) (h2 b hb)

/-! ## Helper lemmas for the highlight bookkeeping. -/

theorem highlightedOf_setHighlighted (st : LaserState) (h : Hand) (v : Option Nat) :
    highlightedOf (setHighlighted st h v) h = v := by
  cases h <;> rfl

theorem hlOn_idA (a : LActor) : (hlOn a).idA = a.idA := rfl

theorem hlOff_idA (a : LActor) : (hlOff a).idA = a.idA := by
  unfold hlOff
  split <;> rfl

theorem hlOn_color (a : LActor) : (hlOn a).color = laserHighlightColor := rfl

theorem hlOff_color (a : LActor) (c : Vec3) (h : a.originalColor = some c) :
    (hlOff a).color = c := by
  unfold hlOff
  rw [h]

theorem updateActor_mem_hit (i : Nat) (l : List LActor) (x : LActor)
    (hx : x ∈ updateActor i hlOn l) (hxi : x.idA = i) :
    x.color = laserHighlightColor := by
  obtain ⟨b, hb, hbe⟩ := List.mem_map.mp hx
  by_cases hbi : b.idA = i
  · rw [if_pos hbi] at hbe
    rw [← hbe]
    rfl
  · rw [if_neg hbi] at hbe
    rw [← hbe] at hxi
    exact absurd hxi hbi

theorem updateActor_mem_ne (i : Nat) (f : LActor → LActor)
    (hf : ∀ x, (f x).idA = x.idA) (l : List LActor) (x : LActor)
    (hx : x ∈ updateActor i f l) (hne : x.idA ≠ i) : x ∈ l := by
  obtain ⟨b, hb, hbe⟩ := List.mem_map.mp hx
  by_cases hbi : b.idA = i
  · rw [if_pos hbi] at hbe
    rw [← hbe, hf b] at hne
    exact absurd hbi hne
  · rw [if_neg hbi] at hbe
    rw [← hbe]
    exact hb

theorem updateActor_mem_self (i : Nat) (f : LActor → LActor)
    (hf : ∀ x, (f x).idA = x.idA) (l : List LActor) (x : LActor)
    (hx : x ∈ updateActor i f l) (hxi : x.idA = i) :
    ∃ b, b ∈ l ∧ b.idA = i ∧ x = f b := by
  obtain ⟨b, hb, hbe⟩ := List.mem_map.mp hx
  by_cases hbi : b.idA = i
  · rw [if_pos hbi] at hbe
    exact ⟨b, hb, hbi, hbe.symm⟩
  · rw [if_neg hbi] at hbe
    rw [← hbe] at hxi
    exact absurd hxi hbi

theorem laserHand_hit_prev (st : LaserState) (h : Hand) (c : LCtrl) (i p : Nat)
    (hc : lCtrlOf st h = some c) (hi : checkRayIntersection c.pos st.actors = some i)
    (hp : highlightedOf st h = some p) (hne : p ≠ i) :
    laserHand h st = setHighlighted
      { st with actors := updateActor i hlOn (updateActor p hlOff st.actors),
                renders := st.renders + 1 + 1 } h (some i) := by
  simp only [laserHand, hc, hi, hp]
  rw [if_neg (by simp [hne] : ¬((some p : Option Nat) = some i))]

theorem laserHand_hit_noprev (st : LaserState) (h : Hand) (c : LCtrl) (i : Nat)
    (hc : lCtrlOf st h = some c) (hi : checkRayIntersection c.pos st.actors = some i)
    (hp : highlightedOf st h = none) :
    laserHand h st = setHighlighted
      { st with actors := updateActor i hlOn st.actors, renders := st.renders + 1 }
      h (some i) := by
  simp only [laserHand, hc, hi, hp]
  rw [if_neg (by simp : ¬((none : Option Nat) = some i))]

theorem laserHand_miss_prev (st : LaserState) (h : Hand) (c : LCtrl) (p : Nat)
    (hc : lCtrlOf st h = some c) (hi : checkRayIntersection c.pos st.actors = none)
    (hp : highlightedOf st h = some p) :
    laserHand h st = setHighlighted
      { st with actors := updateActor p hlOff st.actors, renders := st.renders + 1 }
      h none := by
  simp only [laserHand, hc, hi, hp]

theorem setHighlighted_actors (st : LaserState) (h : Hand) (v : Option Nat) :
    (setHighlighted st h v).actors = st.actors := by
  cases h <;> rfl

/-! ## Claim C9 -/

/-- C9 counterexample: the claim says the highlight color is distinct per
controller hand.  `highlightActor` uses the single constant
`(1.0, 0.8, 0.2)` for every hand: after one laser tick in which the left
hand hits actor 0 and the right hand hits actor 1, both actors carry exactly
the same highlight color. -/
theorem c9_counterexample :
    (laserTick laserDemo).actors.map LActor.color = [laserHighlightColor, laserHighlightColor]
    ∧ (laserTick laserDemo).highlightedLeft = some 0
    ∧ (laserTick laserDemo).highlightedRight = some 1 := by
  have hiL : checkRayIntersection (0, 2, 3) laserDemo.actors = some 0 := by
    norm_num [checkRayIntersection, closestScan, scanStep, sqDist, laserDemo]
  have h1 := laserHand_hit_noprev laserDemo Hand.left ⟨(0, 2, 3)⟩ 0 rfl hiL rfl
  have h1e : laserHand Hand.left laserDemo =
      { isXRActive := true, left := some ⟨(0, 2, 3)⟩, right := some ⟨(10, 2, 3)⟩,
        actors := [⟨0, (1, 2, 3), laserHighlightColor, some (1 / 2, 1 / 2, 1 / 2)⟩,
                   ⟨1, (9, 2, 3), (1 / 4, 1 / 4, 1 / 4), none⟩],
        highlightedLeft := some 0, highlightedRight := none, renders := 1 } := by
    rw [h1]
    norm_num [laserDemo, setHighlighted, updateActor, hlOn]
  have hiR : checkRayIntersection (10, 2, 3)
      ([⟨0, (1, 2, 3), laserHighlightColor, some (1 / 2, 1 / 2, 1 / 2)⟩,
        ⟨1, (9, 2, 3), (1 / 4, 1 / 4, 1 / 4), none⟩] : List LActor) = some 1 := by
    norm_num [checkRayIntersection, closestScan, scanStep, sqDist]
  have h2 := laserHand_hit_noprev (laserHand Hand.left laserDemo) Hand.right ⟨(10, 2, 3)⟩ 1
    (by rw [h1e]; rfl) (by rw [h1e]; exact hiR) (by rw [h1e]; rfl)
  have hTick : laserTick laserDemo = laserHand Hand.right (laserHand Hand.left laserDemo) := rfl
  refine ⟨?_, ?_, ?_⟩ <;> rw [hTick, h2, h1e] <;>
    norm_num [setHighlighted, updateActor, hlOn, highlightedOf]

/-- C9 amended: per frame, for each connected controller, the picking is the
nearest-center heuristic of the source: a hit is a pickable actor within the
fixed threshold (squared distance `< 4`, i.e. Euclidean distance `< 2.0`)
whose center is no farther from the controller than any other pickable
actor, and no hit is reported only when every pickable actor is at or beyond
the threshold.  On a hit different from the hand's current highlight, the
hit actor receives the (single, hand-independent) highlight color and is
recorded for that hand, while the previously highlighted actor gets its
saved original color back; when the hit is lost, the previous actor is
restored and the hand's highlight is cleared.  While XR is active, one tick
processes the left hand and then the right hand. -/
theorem c9_laser_pointer :
    (∀ (cpos : Vec3) (l : List LActor) (i : Nat),
       checkRayIntersection cpos l = some i →
       ∃ a, a ∈ l ∧ a.idA = i ∧ sqDist cpos a.center < 4
         ∧ ∀ b, b ∈ l → sqDist cpos a.center ≤ sqDist cpos b.center)
    ∧ (∀ (cpos : Vec3) (l : List LActor),
       checkRayIntersection cpos l = none → ∀ b, b ∈ l → 4 ≤ sqDist cpos b.center)
    ∧ (∀ (st : LaserState) (h : Hand) (c : LCtrl) (i : Nat),
       lCtrlOf st h = some c → checkRayIntersection c.pos st.actors = some i →
       highlightedOf st h = none →
         highlightedOf (laserHand h st) h = some i
       ∧ (∀ x, x ∈ (laserHand h st).actors → x.idA = i → x.color = laserHighlightColor))
    ∧ (∀ (st : LaserState) (h : Hand) (c : LCtrl) (i p : Nat) (oc : Vec3),
       lCtrlOf st h = some c → checkRayIntersection c.pos st.actors = some i →
       highlightedOf st h = some p → p ≠ i →
       (∀ a, a ∈ st.actors → a.idA = p → a.originalColor = some oc) →
         highlightedOf (laserHand h st) h = some i
       ∧ (∀ x, x ∈ (laserHand h st).actors → x.idA = i → x.color = laserHighlightColor)
       ∧ (∀ x, x ∈ (laserHand h st).actors → x.idA = p → x.color = oc))
    ∧ (∀ (st : LaserState) (h : Hand) (c : LCtrl) (p : Nat) (oc : Vec3),
       lCtrlOf st h = some c → checkRayIntersection c.pos st.actors = none →
       highlightedOf st h = some p →
       (∀ a, a ∈ st.actors → a.idA = p → a.originalColor = some oc) →
         highlightedOf (laserHand h st) h = none
       ∧ (∀ x, x ∈ (laserHand h st).actors → x.idA = p → x.color = oc))
    ∧ (∀ st : LaserState, st.isXRActive = true →
         laserTick st = laserHand Hand.right (laserHand Hand.left st)) := by
  refine ⟨checkRay_some_spec, checkRay_none_spec, ?_, ?_, ?_, ?_⟩
  · intro st h c i hc hi hp
    rw [laserHand_hit_noprev st h c i hc hi hp]
    refine ⟨highlightedOf_setHighlighted _ _ _, ?_⟩
    intro x hx hxi
    rw [setHighlighted_actors] at hx
    exact updateActor_mem_hit i st.actors x hx hxi
  · intro st h c i p oc hc hi hp hne horig
    rw [laserHand_hit_prev st h c i p hc hi hp hne]
    refine ⟨highlightedOf_setHighlighted _ _ _, ?_, ?_⟩
    · intro x hx hxi
      rw [setHighlighted_actors] at hx
      exact updateActor_mem_hit i _ x hx hxi
    · intro x hx hxp
      rw [setHighlighted_actors] at hx
      have hxne : x.idA ≠ i := by rw [hxp]; exact hne
      have hx1 : x ∈ updateActor p hlOff st.actors :=
        updateActor_mem_ne i hlOn hlOn_idA _ x hx hxne
      obtain ⟨b, hb, hbp, hxb⟩ := updateActor_mem_self p hlOff hlOff_idA st.actors x hx1 hxp
      rw [hxb]
      exact hlOff_color b oc (horig b hb hbp)
  · intro st h c p oc hc hi hp horig
    rw [laserHand_miss_prev st h c p hc hi hp]
    refine ⟨highlightedOf_setHighlighted _ _ _, ?_⟩
    intro x hx hxp
    rw [setHighlighted_actors] at hx
    obtain ⟨b, hb, hbp, hxb⟩ := updateActor_mem_self p hlOff hlOff_idA st.actors x hx hxp
    rw [hxb]
    exact hlOff_color b oc (horig b hb hbp)
  · intro st hxr
    unfold laserTick
    rw [if_pos hxr]

/-- C9 witness: the amended theorem applied to a concrete frame — the left
controller at `(0,2,3)` picks actor 0 (squared distance 1, within the
threshold) and highlights it. -/
theorem c9_laser_pointer_witness :
    highlightedOf (laserHand Hand.left laserDemo) Hand.left = some 0 := by
  refine (c9_laser_pointer.2.2.1 laserDemo Hand.left ⟨(0, 2, 3)⟩ 0 rfl ?_ rfl).1
  norm_num [checkRayIntersection, closestScan, scanStep, sqDist, laserDemo]
